import Mathlib

/-!
Shallow embedding of `gitlab_mr.py` (anti-social/gitlab-merge-request).

The core modelled here is the commit-reconciliation parser (`get_mr_commits`,
built on the output of `git cherry -v`), the project-path derivation
(`get_project_path_from_url`), the edit-buffer micro-format
(`edit_mr` / `parse_mr_file`) and the `create` session of class `Cli`.

External collaborators (GitPython repository handle, the python-gitlab client,
the terminal, the text editor) are modelled as fields of an `Env` record:
the repository state is data, the host is a set of projects addressed by
path, `git cherry -v` output is a function of its two arguments, and the
editor is a function from buffer content to buffer content.  Connection
errors of the host collaborator are not modelled: every host operation
either succeeds or fails with its not-found error, which is the fragment
of the collaborator contract the verified claims exercise.

The Python dict that carries the merge-request draft is modelled as an
association list with unique keys (`Dict`), so that presence and absence
of a key (for example the `assignee` key popped before submission) is
observable, mirroring `dict.__contains__` / `dict.pop`.
-/

namespace GitlabMR

/-- Python whitespace for `str.split()` / `str.strip()` (ASCII fragment). -/
def isPySpace (c : Char) : Bool :=
  c = ' ' || c = '\t' || c = '\n' || c = '\r' || c = '\x0b' || c = '\x0c'

/-- Model of Python `s.strip()` (ASCII whitespace). -/
def pyStrip (s : String) : String :=
  String.mk (((s.data.dropWhile isPySpace).reverse.dropWhile isPySpace).reverse)

/-- Whether the first list is a prefix of the second. -/
def seqPrefix : List Char → List Char → Bool
  | [], _ => true
  | _ :: _, [] => false
  | s :: ss, c :: cc => s = c && seqPrefix ss cc

/-- Split on the first-found occurrences of a non-empty separator, left to
right and non-overlapping; the fuel is one more than the input length, which
the loop never exhausts. -/
def splitSeqGo (sep : List Char) : Nat → List Char → List Char → List (List Char)
  | 0, _, cur => [cur.reverse]
  | _ + 1, [], cur => [cur.reverse]
  | fuel + 1, c :: rest, cur =>
    if seqPrefix sep (c :: rest) then
      cur.reverse :: splitSeqGo sep fuel (List.drop (sep.length - 1) rest) []
    else
      splitSeqGo sep fuel rest (c :: cur)

/-- Model of Python `s.split(sep)` for a non-empty separator (also the
behavior of splitting on a newline). -/
def pySplitOn (s sep : String) : List String :=
  match sep.data with
  | [] => [s]
  | _ => (splitSeqGo sep.data (s.data.length + 1) s.data []).map String.mk

/-- Model of Python `s.startswith(pre)`. -/
def pyStartsWith (s pre : String) : Bool :=
  seqPrefix pre.data s.data

/-- Model of Python `s.endswith(suf)`. -/
def pyEndsWith (s suf : String) : Bool :=
  seqPrefix suf.data.reverse s.data.reverse

/-- ASCII lowering of one character. -/
def pyLowerChar (c : Char) : Char :=
  if 65 ≤ c.toNat ∧ c.toNat ≤ 90 then Char.ofNat (c.toNat + 32) else c

/-- Model of Python `s.lower()` (ASCII fragment; the answers compared against
`y`/`yes`/`e`/`edit` are ASCII). -/
def pyLower (s : String) : String :=
  String.mk (s.data.map pyLowerChar)

/-- Model of Python `line.split(maxsplit=2)` followed by unpacking into three
names: returns the first two whitespace-delimited tokens and the remainder of
the line (leading whitespace of the remainder consumed, trailing kept), or
`none` when the line has fewer than three fields, in which case the Python
code raises `ValueError` from tuple unpacking. -/
def splitMax2 (line : String) : Option (String × String × String) :=
  let cs1 := line.data.dropWhile isPySpace
  let t1 := cs1.takeWhile (fun c => !(isPySpace c))
  let r1 := cs1.dropWhile (fun c => !(isPySpace c))
  if t1 = [] then none else
  let cs2 := r1.dropWhile isPySpace
  let t2 := cs2.takeWhile (fun c => !(isPySpace c))
  let r2 := cs2.dropWhile (fun c => !(isPySpace c))
  if t2 = [] then none else
  let rest := r2.dropWhile isPySpace
  if rest = [] then none
  else some (String.mk t1, String.mk t2, String.mk rest)

/-- Model of Python `s.partition(sep)[2]`: the substring after the first
occurrence of `sep`, or the empty string when `sep` does not occur. -/
def pyPartitionAfter (s sep : String) : String :=
  match pySplitOn s sep with
  | [] => ""
  | [_] => ""
  | _ :: rest => String.intercalate sep rest

/-- Model of Python `s.rpartition(sep)[0]`: the substring before the last
occurrence of `sep`, or the empty string when `sep` does not occur. -/
def rpartitionBefore (s sep : String) : String :=
  match pySplitOn s sep with
  | [] => ""
  | [_] => ""
  | parts => String.intercalate sep parts.dropLast

/-- Python truthiness of `x or default` for an optional string flag. -/
def pyOr (o : Option String) (d : String) : String :=
  match o with
  | some s => if s = "" then d else s
  | none => d

/-- Valid characters of a URL scheme, as in CPython urllib. -/
def schemeChar (c : Char) : Bool :=
  c.isAlpha || c.isDigit || c = '+' || c = '-' || c = '.'

/-- Model of `urllib.parse.urlparse(url).path`: split off a scheme when the
text before the first colon is non-empty and made of scheme characters, skip
a `//authority` component up to the next `/`, `?` or `#`, and cut fragment
and query off what remains. -/
def urlparsePath (url : String) : String :=
  let cs := url.data
  let rest :=
    match cs.findIdx? (· = ':') with
    | some i => if 0 < i ∧ (cs.take i).all schemeChar then cs.drop (i + 1) else cs
    | none => cs
  let rest2 :=
    match rest with
    | '/' :: '/' :: r => r.dropWhile (fun c => !(c = '/' || c = '?' || c = '#'))
    | _ => rest
  String.mk ((rest2.takeWhile (· ≠ '#')).takeWhile (· ≠ '?'))

/-- Model of `'/'.join(path.split('/')[-2:])`. -/
def lastTwoSegments (path : String) : String :=
  let parts := pySplitOn path "/"
  String.intercalate "/" (parts.drop (parts.length - 2))

/-- Source `get_project_path_from_url` (gitlab_mr.py lines 430-435): the SSH
`git@` shorthand takes the text after the colon, anything else is parsed as a
URL and its path taken; then the last two `/`-segments are joined and the
text before the last occurrence of `.git` is the result. -/
def get_project_path_from_url (url : String) : String :=
  let path := if pyStartsWith url "git@" then pyPartitionAfter url ":" else urlparsePath url
  rpartitionBefore (lastTwoSegments path) ".git"

/-- One reconciled commit (`MRCommit` namedtuple, fields hash/message/state). -/
structure MRCommit where
  hash : String
  message : String
  state : String
deriving Repr, DecidableEq

/-- Python values stored in the draft dict. -/
inductive Val where
  | vstr (s : String)
  | vnat (n : Nat)
  | vbool (b : Bool)
  | vnone
deriving Repr, DecidableEq

/-- Python truthiness of a `Val`. -/
def Val.truthy : Val → Bool
  | .vstr s => s ≠ ""
  | .vnat n => n ≠ 0
  | .vbool b => b
  | .vnone => false

/-- Rendering of a `Val` the way `str.format` / `%` renders the value. -/
def Val.asString : Val → String
  | .vstr s => s
  | .vnat n => toString n
  | .vbool b => if b then "True" else "False"
  | .vnone => "None"

/-- The draft dict: an association list with unique keys. -/
abbrev Dict := List (String × Val)

/-- First binding of a key (Python `d[k]` / `d.get(k)` distinction is made at
use sites through `Option`). -/
def alookup {α : Type} : List (String × α) → String → Option α
  | [], _ => none
  | (k, v) :: rest, key => if k = key then some v else alookup rest key

/-- Python `d[k] = v`: replace the binding in place, else append. -/
def dset (d : Dict) (k : String) (v : Val) : Dict :=
  match d with
  | [] => [(k, v)]
  | (k0, v0) :: rest => if k0 = k then (k, v) :: rest else (k0, v0) :: dset rest k v

/-- Python `d.pop(k, None)`: drop the binding of `k`. -/
def dpop (d : Dict) (k : String) : Dict :=
  d.filter (fun kv => kv.1 ≠ k)

/-- Python `d.update(d2)`: fold the bindings of `d2` over `d`. -/
def dupdate (d d2 : Dict) : Dict :=
  d2.foldl (fun acc kv => dset acc kv.1 kv.2) d

/-- Errors of one `create` run.  `fatal` is a raised `_GitlabMRError` carrying
its rendered message; `malformedCommitLine` is the `ValueError` raised by
unpacking a `git cherry -v` line of fewer than three fields;
`keyError` stands for an uncaught `KeyError`/`IndexError` lookup failure
and `eofError` for `input()` hitting end of input. -/
inductive Err where
  | fatal (msg : String)
  | malformedCommitLine (line : String)
  | keyError (key : String)
  | eofError
deriving Repr, DecidableEq

/-- A GitLab project as the session sees it: id, `path_with_namespace`,
default branch, the set of branch names the host knows, and the tip commit id
of each branch (`branches.get(b).commit['id']`). -/
structure Project where
  id : Nat
  path_with_namespace : String
  default_branch : String
  branches : List String
  branch_tip : String → String

/-- A git remote: its URL and the names of its known remote references. -/
structure RemoteInfo where
  url : String
  refs : List String
deriving Repr, DecidableEq

/-- A GitLab user as returned by `users.search`. -/
structure GitlabUser where
  username : String
  id : Nat
deriving Repr, DecidableEq

/-- One commit build/pipeline status. -/
structure CommitStatus where
  allow_failure : Bool
  status : String
deriving Repr, DecidableEq

/-- The collaborator state one `create` run interacts with.  `cherry a b` is
the stripped stdout of `git cherry -v a b`; `branches` maps a local branch
name to its tracking-branch full name when one is configured; `head` is the
current branch name, `none` when HEAD is detached; `editor` maps the edit
buffer written to the temp file to its content after the editor exits;
`cfg_source_remote` / `cfg_target_remote` are the `Cli` defaults (already
`or`-ed with `'origin'` in `Cli.__init__`). -/
structure Env where
  cfg_source_remote : String
  cfg_target_remote : String
  remotes : List (String × RemoteInfo)
  branches : List (String × Option String)
  head : Option String
  is_dirty : Bool
  cherry : String → String → String
  projects : String → Option Project
  user_search : String → List GitlabUser
  editor : String → String
  create_mr_error : Option String
  merge_error : Option String
  commit_statuses : String → List CommitStatus

/-- Command-line options of the `create` subcommand (argparse defaults). -/
structure Opts where
  source_branch : Option String := none
  source_remote : Option String := none
  target_branch : Option String := none
  target_remote : Option String := none
  message : Option String := none
  edit : Bool := false
  assignee : Option String := none
  accept_merge : Bool := false
  remove_branch : Bool := true

/-- Observable side effects of one `create` run: the payload passed to
`mergerequests.create` when the call was made, whether `mr.merge` was
invoked, and whether the failed-builds notice was printed. -/
structure Effects where
  created : Option Dict
  merged : Bool
  merge_abort_printed : Bool
deriving Repr, DecidableEq

/-- No side effects yet. -/
def Effects.none : Effects :=
  { created := Option.none, merged := false, merge_abort_printed := false }

/-- Parse the lines of a `git cherry -v` output: each line is unpacked as
`state, hash, msg = line.split(maxsplit=2)` and collected in order as
`MRCommit(hash, msg, state)`; a line of fewer than three fields raises. -/
def parseCherryLines : List String → Except Err (List MRCommit)
  | [] => .ok []
  | line :: rest =>
    match splitMax2 line with
    | Option.none => .error (.malformedCommitLine line)
    | some (state, hsh, msg) =>
      (parseCherryLines rest).map (fun cs => ⟨hsh, msg, state⟩ :: cs)

/-- Body of `Cli.get_mr_commits` after the `git cherry -v` call (lines
242-247): an output that strips to nothing yields the empty list, otherwise
the output is split on newlines and each line parsed. -/
def parseCherry (res : String) : Except Err (List MRCommit) :=
  if pyStrip res = "" then .ok []
  else parseCherryLines (pySplitOn res "\n")

/-- Source `Cli.get_mr_commits` (lines 238-247): runs
`git cherry -v target_branch source_branch` and parses its output. -/
def get_mr_commits (env : Env) (source_branch target_branch : String) :
    Except Err (List MRCommit) :=
  parseCherry (env.cherry target_branch source_branch)

/-- Source `Cli.get_project_by_path` (lines 249-257), connection errors not
modelled. -/
def get_project_by_path (env : Env) (project_path : String) : Except Err Project :=
  match env.projects project_path with
  | some p => .ok p
  | Option.none => .error (.fatal ("Project [" ++ project_path ++ "] not found"))

/-- Source `Cli.get_user_by_username` (lines 259-263): first exact username
match among the search results, else a fatal error. -/
def get_user_by_username (env : Env) (username : String) : Except Err GitlabUser :=
  match (env.user_search username).find? (fun u => u.username = username) with
  | some u => .ok u
  | Option.none => .error (.fatal ("Cannot find user [" ++ username ++ "]"))

/-- Source `Cli.get_project_path_by_remote` (lines 265-270). -/
def get_project_path_by_remote (env : Env) (remote_name : String) : Except Err String :=
  match alookup env.remotes remote_name with
  | Option.none => .error (.fatal ("Cannot find remote [" ++ remote_name ++ "]"))
  | some remote => .ok (get_project_path_from_url remote.url)

/-- The remote branch name derived from the tracking branch when one is set
(`tracking_branch.name.partition('/')[2]`), else the local branch name. -/
def trackingToRemote (tracking : Option String) (local_branch : String) : String :=
  match tracking with
  | some tname => pyPartitionAfter tname "/"
  | Option.none => local_branch

/-- Source `Cli.get_remote_branch_name` (lines 272-286): derive the remote
branch name, then require the project (the caller passes the source project)
to have a branch of that name; a missing local branch raises `IndexError`
inside GitPython, modelled as `keyError`. -/
def get_remote_branch_name (env : Env) (project : Project) (local_branch : String)
    (_remote : String) : Except Err String :=
  match alookup env.branches local_branch with
  | Option.none => .error (.keyError local_branch)
  | some tracking =>
    let remote_branch := trackingToRemote tracking local_branch
    if project.branches.contains remote_branch then .ok remote_branch
    else .error (.fatal ("Branch [" ++ remote_branch ++ "] from project ["
      ++ project.path_with_namespace ++ "] not found"))

/-- Source `is_yes` (lines 438-439). -/
def is_yes (ans : String) : Bool :=
  pyLower ans = "y" || pyLower ans = "yes"

/-- Source `is_edit` (lines 442-443). -/
def is_edit (ans : String) : Bool :=
  pyLower ans = "e" || pyLower ans = "edit"

/-- Source `check_branch` (lines 446-457), connection errors not modelled. -/
def check_branch (project : Project) (branch : String) : Except Err Unit :=
  if project.branches.contains branch then .ok ()
  else .error (.fatal ("Cannot find branch [" ++ branch ++ "] for project ["
    ++ project.path_with_namespace ++ "]"))

/-- Source `validate_mr_data` (lines 460-464): both branches must resolve on
their projects and the title must be truthy. -/
def validate_mr_data (source_project target_project : Project) (data : Dict) :
    Except Err Unit :=
  match alookup data "source_branch" with
  | Option.none => .error (.keyError "source_branch")
  | some sb =>
    match check_branch source_project sb.asString with
    | .error e => .error e
    | .ok _ =>
      match alookup data "target_branch" with
      | Option.none => .error (.keyError "target_branch")
      | some tb =>
        match check_branch target_project tb.asString with
        | .error e => .error e
        | .ok _ =>
          if ((alookup data "title").getD .vnone).truthy then .ok ()
          else .error (.fatal "Empty [title]. Specify title of the merge request.")

/-- Source `get_mr_outline` (lines 548-556). -/
def get_mr_outline (data : Dict) (source_project target_project : Project) : String :=
  source_project.path_with_namespace ++ ":"
    ++ ((alookup data "source_branch").getD .vnone).asString
    ++ " -> " ++ target_project.path_with_namespace ++ ":"
    ++ ((alookup data "target_branch").getD .vnone).asString

/-- Source `format_mr_commits` (lines 559-571) with empty styles: one line
per commit, `prefix + state + ' ' + hash[:8] + ' ' + message`. -/
def format_mr_commits (commits : List MRCommit) (pfx : String) : String :=
  String.intercalate "\n"
    (commits.map (fun c =>
      pfx ++ c.state ++ " " ++ String.mk (c.hash.data.take 8) ++ " " ++ c.message))

/-- An optional field of the edit buffer: the rendered value followed by a
newline when truthy, else empty (`'{}\n'.format(v) if v else ''`). -/
def bufferField (v : Val) : String :=
  if v.truthy then v.asString ++ "\n" else ""

/-- The buffer `edit_mr` writes to the temp file before running the editor
(lines 469-493).  The template has no description placeholder, so the
description value is never rendered into the buffer. -/
def editBufferContent (data : Dict) (source_project target_project : Project)
    (commits : List MRCommit) : String :=
  "Title:\n" ++ bufferField ((alookup data "title").getD .vnone) ++ "\n"
    ++ "Assignee:\n" ++ bufferField ((alookup data "assignee").getD .vnone) ++ "\n"
    ++ "Description:\n" ++ "\n"
    ++ "# You are creating a merge request:\n#\t"
    ++ get_mr_outline data source_project target_project ++ "\n#\n"
    ++ "# Next commits will be included in the merge request:\n#\n"
    ++ format_mr_commits commits "#\t" ++ "\n#\n"
    ++ "# Empty title will cancel the merge request."

/-- The three recognized labels of the edit-buffer micro-format, mapped to
the dict keys they set (`keys_map` in `parse_mr_file`). -/
def keysMap : List (String × String) :=
  [("Title:", "title"), ("Assignee:", "assignee"), ("Description:", "description")]

/-- Flush the content lines collected for the current label into the dict
(`maybe_save_lines` in `parse_mr_file`). -/
def maybeSaveLines (current_key : Option String) (lines : List String) (data : Dict) :
    Dict :=
  match current_key with
  | some k => dset data k (.vstr (String.intercalate "\n" lines))
  | Option.none => data

/-- Line loop of `parse_mr_file` (lines 584-595): strip each line, skip blank
and `#` lines, switch section on an exact label, else collect the line. -/
def parseMRLines : List String → Option String → List String → Dict → Dict
  | [], ck, cl, data => maybeSaveLines ck cl data
  | line :: rest, ck, cl, data =>
    let l := pyStrip line
    if l = "" || pyStartsWith l "#" then parseMRLines rest ck cl data
    else
      match alookup keysMap l with
      | some k => parseMRLines rest (some k) [] (maybeSaveLines ck cl data)
      | Option.none => parseMRLines rest ck (cl ++ [l]) data

/-- Source `parse_mr_file` (lines 574-596) on the file content. -/
def parse_mr_file (s : String) : Dict :=
  parseMRLines (pySplitOn s "\n") Option.none [] []

/-- Source `edit_mr` (lines 467-501): write the buffer, run the editor
(modelled as `env.editor`), re-parse the buffer and update a copy of the
draft with the parsed fields. -/
def edit_mr (env : Env) (data : Dict) (source_project target_project : Project)
    (commits : List MRCommit) : Dict :=
  let content := editBufferContent data source_project target_project commits
  dupdate data (parse_mr_file (env.editor content))

/-- Title defaulting of `Cli.create` (lines 361-368): a truthy `--message`
wins; else a single commit supplies its message when truthy; else the remote
branch name. -/
def pick_title (message : Option String) (commits : List MRCommit)
    (remote_source_branch : String) : String :=
  let t1 : Option String :=
    match message with
    | some m => if m = "" then Option.none else some m
    | Option.none => Option.none
  let t2 : Option String :=
    match t1 with
    | some m => some m
    | Option.none =>
      match commits with
      | [c] => if c.message = "" then Option.none else some c.message
      | _ => Option.none
  match t2 with
  | some m => m
  | Option.none => remote_source_branch

/-- Resolution of the source branch (`opts.source_branch or
self.repo.head.ref.name`, lines 312-315): a truthy flag wins, else the
current branch, and a detached HEAD is fatal. -/
def headBranch (env : Env) : Except Err String :=
  match env.head with
  | some b => .ok b
  | Option.none =>
    .error (.fatal "The repo is in detached state. Cannot find out source branch.")

/-- Resolve the source branch from the flag or HEAD. -/
def resolve_source_branch (env : Env) (opts : Opts) : Except Err String :=
  match opts.source_branch with
  | some b => if b = "" then headBranch env else .ok b
  | Option.none => headBranch env

/-- The value initially stored under the `assignee` key
(`'assignee': opts.assignee`). -/
def assigneeVal (o : Option String) : Val :=
  match o with
  | some s => Val.vstr s
  | Option.none => Val.vnone

/-- Context accumulated by the first part of `Cli.create`, handed to the
confirmation and submission steps. -/
structure Ctx where
  sr : String
  lb : String
  rb : String
  sp : Project
  tp : Project
  tb : String
  commits : List MRCommit
  data : Dict

/-- First part of `Cli.create` (lines 300-368): resolve remotes and project
paths, ask about a dirty tree, resolve the source branch, validate it on the
host and against the remote refs, warn about local-only commits, resolve the
target, compute the merge-request commits and the default title.
`Sum.inl n` is a user-declined early `return n`. -/
def prepare (env : Env) (opts : Opts) (answers : List String) :
    Except Err (Sum Nat (Ctx × List String)) :=
  let source_remote := pyOr opts.source_remote env.cfg_source_remote
  match get_project_path_by_remote env source_remote with
  | .error e => .error e
  | .ok source_project_path =>
  let target_remote := pyOr opts.target_remote env.cfg_target_remote
  match get_project_path_by_remote env target_remote with
  | .error e => .error e
  | .ok target_project_path =>
  match (if env.is_dirty then
           match answers with
           | [] => .error Err.eofError
           | a :: rest =>
             if is_yes a then .ok (Sum.inr rest) else .ok (Sum.inl 1)
         else .ok (Sum.inr answers) : Except Err (Sum Nat (List String))) with
  | .error e => .error e
  | .ok (.inl n) => .ok (.inl n)
  | .ok (.inr answers1) =>
  match resolve_source_branch env opts with
  | .error e => .error e
  | .ok source_branch =>
  match get_project_by_path env source_project_path with
  | .error e => .error e
  | .ok source_project =>
  match get_remote_branch_name env source_project source_branch source_remote with
  | .error e => .error e
  | .ok remote_source_branch =>
  match alookup env.remotes source_remote with
  | Option.none => .error (.keyError source_remote)
  | some remote =>
  if !(remote.refs.contains remote_source_branch) then
    .error (.fatal (("You must push [" ++ remote_source_branch
      ++ "] branch before creating merge request:\n\t")
      ++ ("git push " ++ source_remote ++ " " ++ remote_source_branch)))
  else
  match get_mr_commits env source_branch
      (source_remote ++ "/" ++ remote_source_branch) with
  | .error e => .error e
  | .ok local_commits =>
  match (if local_commits.isEmpty then .ok (Sum.inr answers1)
         else match answers1 with
           | [] => .error Err.eofError
           | a :: rest =>
             if is_yes a then .ok (Sum.inr rest) else .ok (Sum.inl 1)
         : Except Err (Sum Nat (List String))) with
  | .error e => .error e
  | .ok (.inl n) => .ok (.inl n)
  | .ok (.inr answers2) =>
  match get_project_by_path env target_project_path with
  | .error e => .error e
  | .ok target_project =>
  let target_branch := pyOr opts.target_branch target_project.default_branch
  let data0 : Dict :=
    [("source_branch", Val.vstr remote_source_branch),
     ("target_project_id", Val.vnat target_project.id),
     ("target_branch", Val.vstr target_branch),
     ("assignee", assigneeVal opts.assignee),
     ("remove_source_branch", Val.vbool opts.remove_branch)]
  match get_mr_commits env (source_remote ++ "/" ++ remote_source_branch)
      target_branch with
  | .error e => .error e
  | .ok commits =>
  if commits.isEmpty then
    .error (.fatal ("Cannot found commits for merge request: "
      ++ get_mr_outline data0 source_project target_project))
  else
  let title := pick_title opts.message commits remote_source_branch
  .ok (.inr ({ sr := source_remote, lb := source_branch, rb := remote_source_branch,
               sp := source_project, tp := target_project, tb := target_branch,
               commits := commits,
               data := dset data0 "title" (Val.vstr title) }, answers2))

/-- Confirmation step of `Cli.create` (lines 370-380): an up-front `--edit`
goes straight to the editor; otherwise the preview prompt reads one line,
maps the empty answer to `Y`, and interprets it as edit / yes / cancel. -/
def confirm_step (env : Env) (opts : Opts) (ctx : Ctx) (answers : List String) :
    Except Err (Sum Nat Dict) :=
  if opts.edit then
    .ok (.inr (edit_mr env ctx.data ctx.sp ctx.tp ctx.commits))
  else
    match answers with
    | [] => .error Err.eofError
    | raw :: _ =>
      let answer := if raw = "" then "Y" else raw
      if is_edit answer then
        .ok (.inr (edit_mr env ctx.data ctx.sp ctx.tp ctx.commits))
      else if is_yes answer then .ok (.inr ctx.data)
      else .ok (.inl 1)

/-- API tail of `Cli.create` (lines 391-427): submit the validated payload,
and on `--accept-merge` check the tip commit statuses before asking the host
to merge (a non-allowed failed status prints a notice and returns without
merging, which the process maps to exit code 0). -/
def submit_api (env : Env) (opts : Opts) (ctx : Ctx) (data4 : Dict) :
    Except Err Nat × Effects :=
  let fx : Effects :=
    { created := some data4, merged := false, merge_abort_printed := false }
  match env.create_mr_error with
  | some emsg =>
    (.error (.fatal ("Error creating merge request: " ++ emsg)), fx)
  | Option.none =>
    if opts.accept_merge then
      let tip := ctx.sp.branch_tip ctx.rb
      if (env.commit_statuses tip).any
          (fun s => !s.allow_failure && s.status = "failed") then
        (.ok 0, { fx with merge_abort_printed := true })
      else
        match env.merge_error with
        | some m =>
          (.error (.fatal ("Error updating merge request: " ++ m)),
           { fx with merged := true })
        | Option.none => (.ok 0, { fx with merged := true })
    else (.ok 0, fx)

/-- Submission step of `Cli.create` (lines 382-390): resolve a truthy
assignee to `assignee_id`, pop the `assignee` key, validate, then run the
API tail. -/
def submit_step (env : Env) (opts : Opts) (ctx : Ctx) (data2 : Dict) :
    Except Err Nat × Effects :=
  match alookup data2 "assignee" with
  | Option.none => (.error (.keyError "assignee"), Effects.none)
  | some av =>
    match (if av.truthy then
             match get_user_by_username env av.asString with
             | .error e => .error e
             | .ok u => .ok (dset data2 "assignee_id" (.vnat u.id))
           else .ok data2 : Except Err Dict) with
    | .error e => (.error e, Effects.none)
    | .ok data3 =>
      let data4 := dpop data3 "assignee"
      match validate_mr_data ctx.sp ctx.tp data4 with
      | .error e => (.error e, Effects.none)
      | .ok _ => submit_api env opts ctx data4

/-- Source `Cli.create` (lines 300-427): the three steps in sequence.
The returned `Nat` is the exit status (`main` maps the implicit `None`
return of the merge-abort path to 0). -/
def create (env : Env) (opts : Opts) (answers : List String) :
    Except Err Nat × Effects :=
  match prepare env opts answers with
  | .error e => (.error e, Effects.none)
  | .ok (.inl n) => (.ok n, Effects.none)
  | .ok (.inr (ctx, answers2)) =>
    match confirm_step env opts ctx answers2 with
    | .error e => (.error e, Effects.none)
    | .ok (.inl n) => (.ok n, Effects.none)
    | .ok (.inr data2) => submit_step env opts ctx data2

/-- The project of the test fixtures: id 123, path `test/test`, default
branch `master`, branches `master` and `feature`. -/
def sampleProject : Project :=
  { id := 123, path_with_namespace := "test/test", default_branch := "master",
    branches := ["master", "feature"], branch_tip := fun _ => "1234567890abcdef" }

/-- A clean repository on branch `feature` tracking `origin/feature`, with no
local-only commits and one commit `Test` going into the merge request. -/
def sampleEnv : Env :=
  { cfg_source_remote := "origin", cfg_target_remote := "origin",
    remotes := [("origin", { url := "git@example.com:test/test.git",
                             refs := ["master", "feature"] })],
    branches := [("master", some "origin/master"), ("feature", some "origin/feature")],
    head := some "feature",
    is_dirty := false,
    cherry := fun t s =>
      if t = "master" && s = "origin/feature" then "+ 0123456789 Test" else "",
    projects := fun p => if p = "test/test" then some sampleProject else Option.none,
    user_search := fun _ => [],
    editor := fun content => content,
    create_mr_error := Option.none,
    merge_error := Option.none,
    commit_statuses := fun _ => [{ allow_failure := false, status := "success" }] }

/-! Association-list dictionary lemmas. -/

theorem alookup_dset_self (d : Dict) (k : String) (v : Val) :
    alookup (dset d k v) k = some v := by
  induction d with
  | nil => simp [dset, alookup]
  | cons kv rest ih =>
    obtain ⟨k0, v0⟩ := kv
    by_cases h : k0 = k
    · simp [dset, h, alookup]
    · simp [dset, h, alookup, ih]

theorem alookup_dset_ne (d : Dict) (k k' : String) (v : Val) (h : k' ≠ k) :
    alookup (dset d k v) k' = alookup d k' := by
  have h' : k ≠ k' := Ne.symm h
  induction d with
  | nil => simp [dset, alookup, h']
  | cons kv rest ih =>
    obtain ⟨k0, v0⟩ := kv
    by_cases h0 : k0 = k
    · subst h0
      simp [dset, alookup, h']
    · simp [dset, h0, alookup, ih]

theorem alookup_dpop_self (d : Dict) (k : String) :
    alookup (dpop d k) k = Option.none := by
  induction d with
  | nil => simp [dpop, alookup]
  | cons kv rest ih =>
    obtain ⟨k0, v0⟩ := kv
    by_cases h0 : k0 = k
    · simpa [dpop, List.filter_cons, h0] using ih
    · simpa [dpop, List.filter_cons, h0, alookup] using ih

theorem alookup_dpop_ne (d : Dict) (k k' : String) (h : k' ≠ k) :
    alookup (dpop d k) k' = alookup d k' := by
  induction d with
  | nil => simp [dpop, alookup]
  | cons kv rest ih =>
    obtain ⟨k0, v0⟩ := kv
    by_cases h0 : k0 = k
    · subst h0
      simpa [dpop, List.filter_cons, alookup, h, Ne.symm h] using ih
    · by_cases h1 : k0 = k'
      · simp [dpop, List.filter_cons, h0, alookup, h1, h]
      · simpa [dpop, List.filter_cons, h0, alookup, h1, h] using ih

/-- Keys of a dict are unique; `dset` keeps it that way. -/
def DictNodup (d : Dict) : Prop := (d.map Prod.fst).Nodup

theorem mem_dset (rest : Dict) (k : String) (v : Val) (x : String × Val)
    (hx : x ∈ dset rest k v) : x = (k, v) ∨ x ∈ rest := by
  induction rest with
  | nil => simpa [dset] using hx
  | cons kv2 r2 ih2 =>
    obtain ⟨k2, v2⟩ := kv2
    by_cases h2 : k2 = k
    · subst h2
      rcases List.mem_cons.mp (by simpa [dset] using hx) with hx' | hx'
      · left; exact hx'
      · right; exact List.mem_cons_of_mem _ hx'
    · rcases List.mem_cons.mp (by simpa [dset, h2] using hx) with hx' | hx'
      · right; rw [hx']; exact List.mem_cons_self _ _
      · rcases ih2 hx' with h3 | h3
        · left; exact h3
        · right; exact List.mem_cons_of_mem _ h3

theorem dset_nodup (d : Dict) (k : String) (v : Val) (h : DictNodup d) :
    DictNodup (dset d k v) := by
  induction d with
  | nil => simp [dset, DictNodup]
  | cons kv rest ih =>
    obtain ⟨k0, v0⟩ := kv
    simp only [DictNodup, List.map_cons, List.nodup_cons] at h
    by_cases h0 : k0 = k
    · subst h0
      have hd : dset ((k0, v0) :: rest) k0 v = (k0, v) :: rest := by simp [dset]
      rw [hd]
      simpa [DictNodup] using h
    · simp only [dset, h0, if_false, DictNodup, List.map_cons, List.nodup_cons]
      refine ⟨?_, ih h.2⟩
      intro hmem
      rcases List.mem_map.mp hmem with ⟨x, hx, hx1⟩
      rcases mem_dset rest k v x hx with h3 | h3
      · exact h0 (by rw [← hx1, h3])
      · exact h.1 (by simpa [hx1] using List.mem_map_of_mem Prod.fst h3)

theorem alookup_mem {α : Type} (d : List (String × α)) (k : String) (v : α)
    (h : alookup d k = some v) : (k, v) ∈ d := by
  induction d with
  | nil => simp [alookup] at h
  | cons kv rest ih =>
    obtain ⟨k0, v0⟩ := kv
    by_cases h0 : k0 = k
    · subst h0
      simp only [alookup, if_pos rfl] at h
      injection h with h
      rw [h]
      exact List.mem_cons_self _ _
    · simp only [alookup, h0, if_false] at h
      exact List.mem_cons_of_mem _ (ih h)

theorem alookup_eq_none_of_not_mem_keys {α : Type} (d : List (String × α))
    (k : String) (h : k ∉ d.map Prod.fst) : alookup d k = Option.none := by
  induction d with
  | nil => simp [alookup]
  | cons kv rest ih =>
    obtain ⟨k0, v0⟩ := kv
    simp only [List.map_cons, List.mem_cons] at h
    push_neg at h
    have h0 : k0 ≠ k := fun hh => h.1 (hh.symm)
    simp only [alookup, h0, if_false]
    exact ih h.2

theorem dupdate_lookup_none (d p : Dict) (k : String) (h : alookup p k = Option.none) :
    alookup (dupdate d p) k = alookup d k := by
  induction p generalizing d with
  | nil => simp [dupdate]
  | cons kv rest ih =>
    obtain ⟨k0, v0⟩ := kv
    by_cases h0 : k0 = k
    · simp [alookup, h0] at h
    · simp only [alookup, h0, if_false] at h
      have hstep : dupdate d ((k0, v0) :: rest) = dupdate (dset d k0 v0) rest := by
        simp [dupdate]
      rw [hstep, ih _ h, alookup_dset_ne _ _ _ _ (fun hh => h0 (hh.symm))]

theorem dupdate_lookup_some (d p : Dict) (k : String) (v : Val)
    (hnd : DictNodup p) (h : alookup p k = some v) :
    alookup (dupdate d p) k = some v := by
  induction p generalizing d with
  | nil => simp [alookup] at h
  | cons kv rest ih =>
    obtain ⟨k0, v0⟩ := kv
    have hstep : dupdate d ((k0, v0) :: rest) = dupdate (dset d k0 v0) rest := by
      simp [dupdate]
    simp only [DictNodup, List.map_cons, List.nodup_cons] at hnd
    by_cases h0 : k0 = k
    · subst h0
      simp only [alookup, if_pos rfl] at h
      have hrest : alookup rest k0 = Option.none := by
        cases hr : alookup rest k0 with
        | none => rfl
        | some w =>
          exact absurd (List.mem_map_of_mem Prod.fst (alookup_mem rest k0 w hr)) hnd.1
      rw [hstep, dupdate_lookup_none _ _ _ hrest, alookup_dset_self]
      injection h with h
      rw [h]
    · simp only [alookup, h0, if_false] at h
      rw [hstep, ih _ hnd.2 h]

theorem dupdate_lookup_isSome (d p : Dict) (k : String)
    (h : (alookup d k).isSome = true) :
    (alookup (dupdate d p) k).isSome = true := by
  induction p generalizing d with
  | nil => simpa [dupdate] using h
  | cons kv rest ih =>
    obtain ⟨k0, v0⟩ := kv
    have hstep : dupdate d ((k0, v0) :: rest) = dupdate (dset d k0 v0) rest := by
      simp [dupdate]
    rw [hstep]
    refine ih _ ?_
    by_cases h0 : k0 = k
    · subst h0
      simp [alookup_dset_self]
    · rw [alookup_dset_ne _ _ _ _ (fun hh => h0 (hh.symm))]
      exact h

/-! Lemmas about the edit-buffer parser. -/

/-- A parse key is one of the three recognized field names. -/
def IsParseKey (k : String) : Prop :=
  k = "title" ∨ k = "assignee" ∨ k = "description"

theorem maybeSaveLines_lookup (ck : Option String) (cl : List String) (acc : Dict)
    (k : String) (v : Val)
    (hacc : ∀ v', alookup acc k = some v' → IsParseKey k)
    (hck : ∀ k', ck = some k' → IsParseKey k')
    (h : alookup (maybeSaveLines ck cl acc) k = some v) : IsParseKey k := by
  cases ck with
  | none => exact hacc v (by simpa [maybeSaveLines] using h)
  | some k' =>
    by_cases hk : k = k'
    · exact hk ▸ hck k' rfl
    · have := alookup_dset_ne acc k' k (.vstr (String.intercalate "\n" cl)) hk
      rw [maybeSaveLines] at h
      rw [this] at h
      exact hacc v h

theorem parseMRLines_keys (lines : List String) (ck : Option String)
    (cl : List String) (acc : Dict) (k : String) (v : Val)
    (hacc : ∀ v', alookup acc k = some v' → IsParseKey k)
    (hck : ∀ k', ck = some k' → IsParseKey k')
    (h : alookup (parseMRLines lines ck cl acc) k = some v) : IsParseKey k := by
  induction lines generalizing ck cl acc with
  | nil => exact maybeSaveLines_lookup ck cl acc k v hacc hck (by simpa [parseMRLines] using h)
  | cons line rest ih =>
    rw [parseMRLines] at h
    by_cases hskip : pyStrip line = "" || pyStartsWith (pyStrip line) "#"
    · rw [if_pos hskip] at h
      exact ih ck cl acc hacc hck h
    · rw [if_neg hskip] at h
      cases hkm : alookup keysMap (pyStrip line) with
      | none =>
        rw [hkm] at h
        exact ih ck (cl ++ [pyStrip line]) acc hacc hck h
      | some k2 =>
        rw [hkm] at h
        refine ih (some k2) [] (maybeSaveLines ck cl acc) ?_ ?_ h
        · intro v' hv'
          exact maybeSaveLines_lookup ck cl acc k v' hacc hck hv'
        · intro k' hk'
          injection hk' with hk'
          subst hk'
          have hm := alookup_mem keysMap (pyStrip line) k2 hkm
          simp only [keysMap, List.mem_cons, List.not_mem_nil, or_false] at hm
          rcases hm with h1 | h1 | h1
          · exact Or.inl (congrArg Prod.snd h1)
          · exact Or.inr (Or.inl (congrArg Prod.snd h1))
          · exact Or.inr (Or.inr (congrArg Prod.snd h1))

/-- Every key of a parsed edit buffer is one of the three field names. -/
theorem parse_mr_file_keys (s : String) (k : String) (v : Val)
    (h : alookup (parse_mr_file s) k = some v) : IsParseKey k := by
  refine parseMRLines_keys _ _ _ _ k v ?_ ?_ h
  · intro v' hv'
    simp [alookup] at hv'
  · intro k' hk'
    cases hk'

theorem maybeSaveLines_nodup (ck : Option String) (cl : List String) (acc : Dict)
    (h : DictNodup acc) : DictNodup (maybeSaveLines ck cl acc) := by
  cases ck with
  | none => simpa [maybeSaveLines] using h
  | some k' => exact dset_nodup acc k' _ h

/-- The parsed edit buffer has unique keys. -/
theorem parseMRLines_nodup (lines : List String) (ck : Option String)
    (cl : List String) (acc : Dict) (h : DictNodup acc) :
    DictNodup (parseMRLines lines ck cl acc) := by
  induction lines generalizing ck cl acc with
  | nil =>
    rw [parseMRLines]
    exact maybeSaveLines_nodup ck cl acc h
  | cons line rest ih =>
    rw [parseMRLines]
    by_cases hskip : pyStrip line = "" || pyStartsWith (pyStrip line) "#"
    · rw [if_pos hskip]
      exact ih ck cl acc h
    · rw [if_neg hskip]
      cases hkm : alookup keysMap (pyStrip line) with
      | none => exact ih ck (cl ++ [pyStrip line]) acc h
      | some k2 => exact ih (some k2) [] _ (maybeSaveLines_nodup ck cl acc h)

theorem parse_mr_file_nodup (s : String) : DictNodup (parse_mr_file s) :=
  parseMRLines_nodup _ _ _ _ (by simp [DictNodup])

/-- A key outside the three field names is never bound by the parser. -/
theorem parse_mr_file_other_keys (s : String) (k : String) (h : ¬ IsParseKey k) :
    alookup (parse_mr_file s) k = Option.none := by
  cases hv : alookup (parse_mr_file s) k with
  | none => rfl
  | some v => exact absurd (parse_mr_file_keys s k v hv) h

/-! Lemmas about the cherry-output parser. -/

theorem parseCherryLines_ok (lines : List String)
    (h : ∀ l ∈ lines, (splitMax2 l).isSome = true) :
    ∃ cs, parseCherryLines lines = .ok cs ∧
      List.Forall₂ (fun l c => splitMax2 l = some (c.state, c.hash, c.message))
        lines cs := by
  induction lines with
  | nil => exact ⟨[], rfl, List.Forall₂.nil⟩
  | cons l ls ih =>
    have hl := h l (List.mem_cons_self _ _)
    rcases hsp : splitMax2 l with _ | ⟨st, hs, ms⟩
    · rw [hsp] at hl; cases hl
    · obtain ⟨cs, hcs, hf⟩ := ih (fun x hx => h x (List.mem_cons_of_mem _ hx))
      refine ⟨⟨hs, ms, st⟩ :: cs, ?_, ?_⟩
      · rw [parseCherryLines, hsp, hcs]
        rfl
      · exact List.Forall₂.cons (by simp [hsp]) hf

theorem parseCherryLines_err (lines : List String)
    (h : ∃ l ∈ lines, splitMax2 l = Option.none) :
    ∃ l, parseCherryLines lines = .error (.malformedCommitLine l) ∧
      splitMax2 l = Option.none := by
  induction lines with
  | nil => simp at h
  | cons l ls ih =>
    rcases hsp : splitMax2 l with _ | v
    · exact ⟨l, by rw [parseCherryLines, hsp], hsp⟩
    · obtain ⟨x, hx, hxn⟩ := h
      rcases List.mem_cons.mp hx with h1 | h1
      · rw [h1, hsp] at hxn; cases hxn
      · obtain ⟨l', herr, hn⟩ := ih ⟨x, h1, hxn⟩
        obtain ⟨st, hs, ms⟩ := v
        refine ⟨l', ?_, hn⟩
        rw [parseCherryLines, hsp, herr]
        rfl

theorem splitMax2_message_ne (l st hs ms : String)
    (h : splitMax2 l = some (st, hs, ms)) : ms ≠ "" := by
  rw [splitMax2] at h
  by_cases h1 : (l.data.dropWhile isPySpace).takeWhile (fun c => !(isPySpace c)) = []
  · rw [if_pos h1] at h; cases h
  · rw [if_neg h1] at h
    by_cases h2 : ((((l.data.dropWhile isPySpace).dropWhile
        (fun c => !(isPySpace c))).dropWhile isPySpace).takeWhile
          (fun c => !(isPySpace c))) = []
    · rw [if_pos h2] at h; cases h
    · rw [if_neg h2] at h
      by_cases h3 : ((((((l.data.dropWhile isPySpace).dropWhile
          (fun c => !(isPySpace c))).dropWhile isPySpace).dropWhile
            (fun c => !(isPySpace c))).dropWhile isPySpace)) = []
      · rw [if_pos h3] at h; cases h
      · rw [if_neg h3] at h
        injection h with h
        rw [Prod.mk.injEq, Prod.mk.injEq] at h
        intro hms
        apply h3
        have h4 := congrArg String.data ((h.2.2).trans hms)
        simpa using h4

theorem parseCherryLines_message_ne (lines : List String) (cs : List MRCommit)
    (h : parseCherryLines lines = .ok cs) : ∀ c ∈ cs, c.message ≠ "" := by
  induction lines generalizing cs with
  | nil =>
    rw [parseCherryLines] at h
    injection h with h
    subst h
    simp
  | cons l ls ih =>
    rw [parseCherryLines] at h
    rcases hsp : splitMax2 l with _ | ⟨st, hs, ms⟩
    · rw [hsp] at h; cases h
    · rw [hsp] at h
      cases hrest : parseCherryLines ls with
      | error e => rw [hrest] at h; cases h
      | ok cs' =>
        rw [hrest] at h
        injection h with h
        subst h
        intro c hc
        rcases List.mem_cons.mp hc with h1 | h1
        · rw [h1]
          exact splitMax2_message_ne l st hs ms hsp
        · exact ih cs' hrest c h1

theorem get_mr_commits_message_ne (env : Env) (a b : String) (cs : List MRCommit)
    (h : get_mr_commits env a b = .ok cs) : ∀ c ∈ cs, c.message ≠ "" := by
  rw [get_mr_commits, parseCherry] at h
  by_cases h0 : pyStrip (env.cherry b a) = ""
  · rw [if_pos h0] at h
    injection h with h
    subst h
    simp
  · rw [if_neg h0] at h
    exact parseCherryLines_message_ne _ _ h

/-! Lemmas about the `create` session. -/

/-- The draft dict as built by `prepare` (the five initial keys in insertion
order with the title appended by `data['title'] = title`). -/
def draftData (rb : String) (tp : Project) (tb : String) (assignee : Option String)
    (remove : Bool) (title : String) : Dict :=
  [("source_branch", Val.vstr rb), ("target_project_id", Val.vnat tp.id),
   ("target_branch", Val.vstr tb), ("assignee", assigneeVal assignee),
   ("remove_source_branch", Val.vbool remove), ("title", Val.vstr title)]

/-- A remote branch name returned by `get_remote_branch_name` was found among
the branches of the project that was passed in. -/
theorem get_remote_branch_name_mem (env : Env) (sp : Project) (lb r rb : String)
    (h : get_remote_branch_name env sp lb r = .ok rb) :
    sp.branches.contains rb = true := by
  rw [get_remote_branch_name] at h
  cases htr : alookup env.branches lb with
  | none => simp [htr] at h
  | some tracking =>
    simp only [htr] at h
    by_cases hm : trackingToRemote tracking lb ∈ sp.branches
    · simp [hm] at h
      rw [← h]
      simpa using hm
    · simp [hm] at h

/-- Under the hypotheses that pin every collaborator interaction of the first
part of `create` (remotes resolve, tree clean, branch resolves and is pushed,
no local-only commits, target resolves, a non-empty commit list), `prepare`
reaches the draft with the default title and consumes no answers. -/
theorem prepare_ok
    (env : Env) (opts : Opts) (answers : List String)
    (sr : String) (sri tri : RemoteInfo) (sp tp : Project) (lb rb : String)
    (commits : List MRCommit)
    (hsr : pyOr opts.source_remote env.cfg_source_remote = sr)
    (h1 : alookup env.remotes sr = some sri)
    (h2 : alookup env.remotes (pyOr opts.target_remote env.cfg_target_remote) = some tri)
    (h3 : env.is_dirty = false)
    (h4 : resolve_source_branch env opts = .ok lb)
    (h5 : env.projects (get_project_path_from_url sri.url) = some sp)
    (h6 : get_remote_branch_name env sp lb sr = .ok rb)
    (h7 : sri.refs.contains rb = true)
    (h8 : get_mr_commits env lb (sr ++ "/" ++ rb) = .ok [])
    (h9 : env.projects (get_project_path_from_url tri.url) = some tp)
    (h11 : get_mr_commits env (sr ++ "/" ++ rb)
             (pyOr opts.target_branch tp.default_branch) = .ok commits)
    (h12 : commits ≠ []) :
    prepare env opts answers = .ok (.inr
      ({ sr := sr, lb := lb, rb := rb, sp := sp, tp := tp,
         tb := pyOr opts.target_branch tp.default_branch,
         commits := commits,
         data := draftData rb tp (pyOr opts.target_branch tp.default_branch)
                   opts.assignee opts.remove_branch
                   (pick_title opts.message commits rb) }, answers)) := by
  cases commits with
  | nil => exact absurd rfl h12
  | cons c cs =>
    simp only [prepare, get_project_path_by_remote, get_project_by_path, hsr,
      h1, h2, h3, h4, h5, h6, h7, h8, h9, h11]
    simp [draftData, dset]

/-! Claim theorems. -/

/-- C10: at the uncommitted-changes prompt and at the local-commits prompt,
every answer other than a case-insensitive `y`/`yes` — including the empty
string, which `is_yes` rejects — makes `create` return status 1 without
raising an error; empty input is not treated as yes at these prompts. -/
theorem c10_prompts_default_no :
    (∀ (env : Env) (opts : Opts) (a : String) (rest : List String)
       (sri tri : RemoteInfo),
       alookup env.remotes (pyOr opts.source_remote env.cfg_source_remote) = some sri →
       alookup env.remotes (pyOr opts.target_remote env.cfg_target_remote) = some tri →
       env.is_dirty = true →
       is_yes a = false →
       create env opts (a :: rest) = (.ok 1, Effects.none)) ∧
    (∀ (env : Env) (opts : Opts) (a : String) (rest : List String)
       (sr : String) (sri tri : RemoteInfo) (sp : Project) (lb rb : String)
       (c : MRCommit) (cs : List MRCommit),
       pyOr opts.source_remote env.cfg_source_remote = sr →
       alookup env.remotes sr = some sri →
       alookup env.remotes (pyOr opts.target_remote env.cfg_target_remote) = some tri →
       env.is_dirty = false →
       resolve_source_branch env opts = .ok lb →
       env.projects (get_project_path_from_url sri.url) = some sp →
       get_remote_branch_name env sp lb sr = .ok rb →
       sri.refs.contains rb = true →
       get_mr_commits env lb (sr ++ "/" ++ rb) = .ok (c :: cs) →
       is_yes a = false →
       create env opts (a :: rest) = (.ok 1, Effects.none)) ∧
    is_yes "" = false := by
  refine ⟨?_, ?_, by decide⟩
  · intro env opts a rest sri tri h1 h2 h3 ha
    simp [create, prepare, get_project_path_by_remote, h1, h2, h3, ha]
  · intro env opts a rest sr sri tri sp lb rb c cs hsr h1 h2 h3 h4 h5 h6 h7 h8 ha
    have h7' : rb ∈ sri.refs := by simpa using h7
    simp [create, prepare, get_project_path_by_remote, get_project_by_path,
      hsr, h1, h2, h3, h4, h5, h6, h7', h8, ha]

/-- C10 witness: an empty answer at the dirty-tree prompt and a `q` answer at
the local-commits prompt both return status 1. -/
theorem c10_witness :
    create { sampleEnv with is_dirty := true } {} [""] = (.ok 1, Effects.none) ∧
    create { sampleEnv with cherry := fun _ _ => "+ 0123456789 Test" } {} ["q"] =
      (.ok 1, Effects.none) := by
  constructor
  · exact c10_prompts_default_no.1 { sampleEnv with is_dirty := true } {} "" []
      { url := "git@example.com:test/test.git", refs := ["master", "feature"] }
      { url := "git@example.com:test/test.git", refs := ["master", "feature"] }
      (by decide) (by decide) (by decide) (by decide)
  · exact c10_prompts_default_no.2.1
      { sampleEnv with cherry := fun _ _ => "+ 0123456789 Test" } {} "q" []
      "origin"
      { url := "git@example.com:test/test.git", refs := ["master", "feature"] }
      { url := "git@example.com:test/test.git", refs := ["master", "feature"] }
      sampleProject "feature" "feature" ⟨"0123456789", "Test", "+"⟩ []
      (by decide) (by decide) (by decide) (by decide) rfl rfl rfl
      (by decide) rfl (by decide)

/-- C1: on a non-empty equivalence-diff output whose lines all decompose,
`get_mr_commits` yields exactly one entry per line in input order, the state
being the first whitespace token, the hash the second and the message the
remainder; a diff with zero output lines yields the empty list, not an
error. -/
theorem c1_reconcile_per_line :
    (∀ (env : Env) (src tgt : String),
       pyStrip (env.cherry tgt src) = "" →
       get_mr_commits env src tgt = .ok []) ∧
    (∀ (env : Env) (src tgt : String),
       pyStrip (env.cherry tgt src) ≠ "" →
       (∀ l ∈ pySplitOn (env.cherry tgt src) "\n", (splitMax2 l).isSome = true) →
       ∃ cs, get_mr_commits env src tgt = .ok cs ∧
         List.Forall₂ (fun l c => splitMax2 l = some (c.state, c.hash, c.message))
           (pySplitOn (env.cherry tgt src) "\n") cs) := by
  constructor
  · intro env src tgt h
    simp [get_mr_commits, parseCherry, h]
  · intro env src tgt h hall
    rw [get_mr_commits, parseCherry, if_neg h]
    exact parseCherryLines_ok _ hall

/-- C1 witness: the sample environment has an empty local diff and a one-line
merge-request diff. -/
theorem c1_witness :
    get_mr_commits sampleEnv "feature" "origin/feature" = .ok [] ∧
    (∃ cs, get_mr_commits sampleEnv "origin/feature" "master" = .ok cs ∧
       List.Forall₂ (fun l c => splitMax2 l = some (c.state, c.hash, c.message))
         (pySplitOn (sampleEnv.cherry "master" "origin/feature") "\n") cs) :=
  ⟨c1_reconcile_per_line.1 sampleEnv "feature" "origin/feature" (by decide),
   c1_reconcile_per_line.2 sampleEnv "origin/feature" "master" (by decide) (by decide)⟩

/-- C2: an equivalence-diff output containing a line of fewer than three
whitespace-separated fields makes `get_mr_commits` raise the malformed-line
error instead of dropping the line. -/
theorem c2_malformed_line_error :
    ∀ (env : Env) (src tgt : String),
      pyStrip (env.cherry tgt src) ≠ "" →
      (∃ l ∈ pySplitOn (env.cherry tgt src) "\n", splitMax2 l = Option.none) →
      ∃ l, get_mr_commits env src tgt = .error (.malformedCommitLine l) ∧
        splitMax2 l = Option.none := by
  intro env src tgt h hex
  rw [get_mr_commits, parseCherry, if_neg h]
  exact parseCherryLines_err _ hex

/-- C2 witness: a two-field line raises the malformed-line error. -/
theorem c2_witness :
    ∃ l, get_mr_commits { sampleEnv with cherry := fun _ _ => "+ 0123456789" }
        "feature" "master" = .error (.malformedCommitLine l) ∧
      splitMax2 l = Option.none :=
  c2_malformed_line_error { sampleEnv with cherry := fun _ _ => "+ 0123456789" }
    "feature" "master" (by decide) ⟨"+ 0123456789", by decide, by decide⟩

/-- Modelled from the words of claim C3: strip exactly one trailing `.git`
suffix from the joined last two segments, leaving the string unchanged when
it does not end in `.git`. -/
def claimedStripTrailingGit (s : String) : String :=
  if pyEndsWith s ".git" then String.mk (s.data.take (s.data.length - 4)) else s

/-- Modelled from the words of claim C3 (the SSH shorthand condition read as
the `git@` prefix the code tests): take the part after the colon or the
parsed URL path, join the last two segments, and strip one trailing `.git`
suffix. -/
def claimedProjectPath (url : String) : String :=
  let path := if pyStartsWith url "git@" then pyPartitionAfter url ":" else urlparsePath url
  claimedStripTrailingGit (lastTwoSegments path)

/-- C3 counterexample: for a URL with no `.git` anywhere the code returns the
empty string, while the claimed trailing-suffix stripping would leave
`group/project` unchanged. -/
theorem c3_counterexample :
    get_project_path_from_url "https://example.com/group/project" = "" ∧
    claimedProjectPath "https://example.com/group/project" = "group/project" ∧
    ("" : String) ≠ "group/project" := by
  refine ⟨by decide, by decide, by decide⟩

/-- Modelled from the amended claim C3: everything before the last occurrence
of `.git` in the joined last two segments (empty when `.git` does not occur),
with the `git@` prefix selecting the SSH shorthand branch. -/
def amendedProjectPath (url : String) : String :=
  let path := if pyStartsWith url "git@" then pyPartitionAfter url ":" else urlparsePath url
  rpartitionBefore (lastTwoSegments path) ".git"

/-- C3 amended: the derivation takes the text after the colon for `git@` SSH
shorthand URLs and the parsed path otherwise, joins the last two segments and
keeps what precedes the last occurrence of `.git` (so one trailing `.git` is
stripped, an earlier `.git` is preserved, and a URL with no `.git` maps to
the empty string); the four claimed examples hold. -/
theorem c3_amended_path_derivation :
    (∀ url, get_project_path_from_url url = amendedProjectPath url) ∧
    get_project_path_from_url "git@example.com:group/project.git" = "group/project" ∧
    get_project_path_from_url "git@example.com:group/project.git.git" = "group/project.git" ∧
    get_project_path_from_url "https://example.com/group/project.git" = "group/project" ∧
    get_project_path_from_url "ssh://git@example.com:2222/var/git/group/project.git" =
      "group/project" ∧
    get_project_path_from_url "https://example.com/group/project" = "" :=
  ⟨fun _ => rfl, by decide, by decide, by decide, by decide, by decide⟩

instance {ε α : Type} [DecidableEq ε] [DecidableEq α] : DecidableEq (Except ε α)
  | .error e, .error f =>
    if h : e = f then .isTrue (by rw [h])
    else .isFalse (fun hh => h (by injection hh))
  | .error _, .ok _ => .isFalse (fun hh => Except.noConfusion hh)
  | .ok _, .error _ => .isFalse (fun hh => Except.noConfusion hh)
  | .ok a, .ok b =>
    if h : a = b then .isTrue (by rw [h])
    else .isFalse (fun hh => h (by injection hh))

/-- A source project for the C4 scenario: it has the `feature` branch. -/
def srcProjectC4 : Project :=
  { id := 1, path_with_namespace := "grp/src", default_branch := "master",
    branches := ["feature", "master"], branch_tip := fun _ => "tip1" }

/-- A target project for the C4 scenario: it has no `feature` branch. -/
def tgtProjectC4 : Project :=
  { id := 2, path_with_namespace := "grp/tgt", default_branch := "master",
    branches := ["master"], branch_tip := fun _ => "tip2" }

/-- Environment for the C4 scenario: distinct source and target remotes, the
remote branch known to the source remote and to the source project, while
the target project does not have it. -/
def envC4 : Env :=
  { cfg_source_remote := "origin", cfg_target_remote := "origin",
    remotes := [("origin", { url := "git@example.com:grp/src.git",
                             refs := ["feature"] }),
                ("upstream", { url := "git@example.com:grp/tgt.git",
                               refs := ["master"] })],
    branches := [("feature", some "origin/feature")],
    head := some "feature",
    is_dirty := false,
    cherry := fun t s =>
      if t = "master" && s = "origin/feature" then "+ 0123456789 Test" else "",
    projects := fun p =>
      if p = "grp/src" then some srcProjectC4
      else if p = "grp/tgt" then some tgtProjectC4 else Option.none,
    user_search := fun _ => [],
    editor := fun content => content,
    create_mr_error := Option.none,
    merge_error := Option.none,
    commit_statuses := fun _ => [] }

/-- C4 counterexample: the target project has no branch named `feature` (the
remote branch of the session), yet the session completes successfully — the
host lookup of the validation step is made against the source project, not
the target project as the claim states. -/
theorem c4_counterexample :
    tgtProjectC4.branches.contains "feature" = false ∧
    (create envC4 { target_remote := some "upstream" } ["y"]).1 = .ok 0 ∧
    (create envC4 { target_remote := some "upstream" } ["y"]).2.created.isSome = true := by
  refine ⟨by decide, by decide, by decide⟩

/-- C4 amended: during branch validation the session requires the remote
branch to exist on the source project (fatal `Branch [b] from project [p] not
found` naming the branch and the source project) and among the source
remote's known references (fatal push message that ends with the literal
suggested command `git push <remote> <branch>`). -/
theorem c4_amended_branch_validation
    (env : Env) (opts : Opts) (answers : List String)
    (sri tri : RemoteInfo) (sp : Project) (lb rb : String) (tracking : Option String)
    (h1 : alookup env.remotes (pyOr opts.source_remote env.cfg_source_remote) = some sri)
    (h2 : alookup env.remotes (pyOr opts.target_remote env.cfg_target_remote) = some tri)
    (h3 : env.is_dirty = false)
    (h4 : resolve_source_branch env opts = .ok lb)
    (h5 : env.projects (get_project_path_from_url sri.url) = some sp)
    (h6 : alookup env.branches lb = some tracking)
    (h7 : trackingToRemote tracking lb = rb) :
    (rb ∉ sp.branches →
      create env opts answers =
        (.error (.fatal ("Branch [" ++ rb ++ "] from project ["
           ++ sp.path_with_namespace ++ "] not found")), Effects.none)) ∧
    (rb ∈ sp.branches → rb ∉ sri.refs →
      create env opts answers =
        (.error (.fatal (("You must push [" ++ rb
           ++ "] branch before creating merge request:\n\t")
           ++ ("git push " ++ (pyOr opts.source_remote env.cfg_source_remote)
               ++ " " ++ rb))), Effects.none) ∧
      ∃ p, ("You must push [" ++ rb ++ "] branch before creating merge request:\n\t")
           ++ ("git push " ++ (pyOr opts.source_remote env.cfg_source_remote)
               ++ " " ++ rb)
          = p ++ ("git push " ++ (pyOr opts.source_remote env.cfg_source_remote)
               ++ " " ++ rb)) := by
  constructor
  · intro hnot
    simp [create, prepare, get_project_path_by_remote, get_project_by_path,
      get_remote_branch_name, h1, h2, h3, h4, h5, h6, h7, hnot]
  · intro hmem hrefs
    refine ⟨?_, ⟨"You must push [" ++ rb ++ "] branch before creating merge request:\n\t",
      rfl⟩⟩
    simp [create, prepare, get_project_path_by_remote, get_project_by_path,
      get_remote_branch_name, h1, h2, h3, h4, h5, h6, h7, hmem, hrefs]

/-- C4 witness: a remote branch missing from the source project is fatal with
the branch-not-found message, and a branch present on the project but absent
from the remote refs is fatal with the push suggestion. -/
theorem c4_witness :
    create { envC4 with projects := fun p =>
               if p = "grp/src" then some tgtProjectC4 else Option.none } {} [] =
      (.error (.fatal ("Branch [" ++ "feature" ++ "] from project ["
         ++ "grp/tgt" ++ "] not found")), Effects.none) ∧
    create { envC4 with remotes :=
               [("origin", { url := "git@example.com:grp/src.git", refs := [] })] } {} [] =
      (.error (.fatal (("You must push [" ++ "feature"
         ++ "] branch before creating merge request:\n\t")
         ++ ("git push " ++ "origin" ++ " " ++ "feature"))), Effects.none) := by
  constructor
  · exact (c4_amended_branch_validation
      { envC4 with projects := fun p =>
          if p = "grp/src" then some tgtProjectC4 else Option.none } {} []
      { url := "git@example.com:grp/src.git", refs := ["feature"] }
      { url := "git@example.com:grp/src.git", refs := ["feature"] }
      tgtProjectC4 "feature" "feature" (some "origin/feature")
      (by decide) (by decide) rfl rfl rfl rfl (by decide)).1 (by decide)
  · exact ((c4_amended_branch_validation
      { envC4 with remotes :=
          [("origin", { url := "git@example.com:grp/src.git", refs := [] })] } {} []
      { url := "git@example.com:grp/src.git", refs := [] }
      { url := "git@example.com:grp/src.git", refs := [] }
      srcProjectC4 "feature" "feature" (some "origin/feature")
      (by decide) (by decide) rfl rfl rfl rfl (by decide)).2
      (by decide) (by decide)).1

/-- With no `--edit` flag and a confirming (non-edit) preview answer, the run
continues into the submission step with the prepared draft. -/
theorem create_eq_submit
    (env : Env) (opts : Opts) (raw : String) (rest : List String)
    (sr : String) (sri tri : RemoteInfo) (sp tp : Project) (lb rb : String)
    (commits : List MRCommit)
    (hsr : pyOr opts.source_remote env.cfg_source_remote = sr)
    (h1 : alookup env.remotes sr = some sri)
    (h2 : alookup env.remotes (pyOr opts.target_remote env.cfg_target_remote) = some tri)
    (h3 : env.is_dirty = false)
    (h4 : resolve_source_branch env opts = .ok lb)
    (h5 : env.projects (get_project_path_from_url sri.url) = some sp)
    (h6 : get_remote_branch_name env sp lb sr = .ok rb)
    (h7 : sri.refs.contains rb = true)
    (h8 : get_mr_commits env lb (sr ++ "/" ++ rb) = .ok [])
    (h9 : env.projects (get_project_path_from_url tri.url) = some tp)
    (h11 : get_mr_commits env (sr ++ "/" ++ rb)
             (pyOr opts.target_branch tp.default_branch) = .ok commits)
    (h12 : commits ≠ [])
    (h13 : opts.edit = false)
    (hyes : is_yes (if raw = "" then "Y" else raw) = true)
    (hnedit : is_edit (if raw = "" then "Y" else raw) = false) :
    create env opts (raw :: rest) =
      submit_step env opts
        { sr := sr, lb := lb, rb := rb, sp := sp, tp := tp,
          tb := pyOr opts.target_branch tp.default_branch,
          commits := commits,
          data := draftData rb tp (pyOr opts.target_branch tp.default_branch)
                    opts.assignee opts.remove_branch
                    (pick_title opts.message commits rb) }
        (draftData rb tp (pyOr opts.target_branch tp.default_branch)
           opts.assignee opts.remove_branch (pick_title opts.message commits rb)) := by
  unfold create
  rw [prepare_ok env opts (raw :: rest) sr sri tri sp tp lb rb commits hsr h1 h2 h3
    h4 h5 h6 h7 h8 h9 h11 h12]
  simp [confirm_step, h13, hyes, hnedit]

/-- A full confirmed run of `create` with no `--edit`, a `y` answer at the
preview, no assignee, a validating draft and no auto-merge: the host receives
the draft without its `assignee` key and the run exits with status 0. -/
theorem create_confirmed_run
    (env : Env) (opts : Opts) (raw : String) (rest : List String)
    (sr : String) (sri tri : RemoteInfo) (sp tp : Project) (lb rb : String)
    (commits : List MRCommit)
    (hsr : pyOr opts.source_remote env.cfg_source_remote = sr)
    (h1 : alookup env.remotes sr = some sri)
    (h2 : alookup env.remotes (pyOr opts.target_remote env.cfg_target_remote) = some tri)
    (h3 : env.is_dirty = false)
    (h4 : resolve_source_branch env opts = .ok lb)
    (h5 : env.projects (get_project_path_from_url sri.url) = some sp)
    (h6 : get_remote_branch_name env sp lb sr = .ok rb)
    (h7 : sri.refs.contains rb = true)
    (h8 : get_mr_commits env lb (sr ++ "/" ++ rb) = .ok [])
    (h9 : env.projects (get_project_path_from_url tri.url) = some tp)
    (h11 : get_mr_commits env (sr ++ "/" ++ rb)
             (pyOr opts.target_branch tp.default_branch) = .ok commits)
    (h12 : commits ≠ [])
    (h13 : opts.edit = false)
    (h14 : opts.assignee = Option.none)
    (h15 : tp.branches.contains (pyOr opts.target_branch tp.default_branch) = true)
    (h16 : env.create_mr_error = Option.none)
    (h17 : opts.accept_merge = false)
    (hT : pick_title opts.message commits rb ≠ "")
    (hyes : is_yes (if raw = "" then "Y" else raw) = true)
    (hnedit : is_edit (if raw = "" then "Y" else raw) = false) :
    create env opts (raw :: rest) =
      (.ok 0,
       { created := some (dpop (draftData rb tp (pyOr opts.target_branch tp.default_branch)
                     opts.assignee opts.remove_branch (pick_title opts.message commits rb))
                     "assignee"),
         merged := false, merge_abort_printed := false }) := by
  have hmem : rb ∈ sp.branches := by
    simpa using get_remote_branch_name_mem env sp lb sr rb h6
  have h15' : pyOr opts.target_branch tp.default_branch ∈ tp.branches := by
    simpa using h15
  rw [create_eq_submit env opts raw rest sr sri tri sp tp lb rb commits hsr h1 h2 h3
    h4 h5 h6 h7 h8 h9 h11 h12 h13 hyes hnedit]
  simp [submit_step, submit_api, validate_mr_data, check_branch, draftData,
    dpop, alookup, Val.truthy, Val.asString, assigneeVal,
    h14, h16, h17, hmem, h15', hT]

/-- Environment for the C5 counterexample: two commits go into the merge
request. -/
def envC5 : Env :=
  { sampleEnv with cherry := fun t s =>
      if t = "master" && s = "origin/feature" then
        "+ 0123456789 Test\n+ abcdef0123 Test multiple commits"
      else "" }

/-- C5 counterexample: with an explicit but empty `--message` value the
submitted title is the remote branch name `feature`, not the explicit empty
message — an explicit `--message` value does not always win. -/
theorem c5_counterexample :
    ((create envC5 { message := some "" } ["y"]).2.created.map
        (fun d => alookup d "title")) = some (some (.vstr "feature")) ∧
    Val.vstr "feature" ≠ Val.vstr "" := by
  refine ⟨by decide, by decide⟩

/-- C5 amended: the default title is chosen by this priority — a non-empty
explicit `--message` value wins (an empty one is treated as absent); else a
single commit supplies its message; else the remote branch name is used. -/
theorem c5_amended_title_priority
    (env : Env) (opts : Opts) (rest : List String)
    (sr : String) (sri tri : RemoteInfo) (sp tp : Project) (lb rb : String)
    (commits : List MRCommit)
    (hsr : pyOr opts.source_remote env.cfg_source_remote = sr)
    (h1 : alookup env.remotes sr = some sri)
    (h2 : alookup env.remotes (pyOr opts.target_remote env.cfg_target_remote) = some tri)
    (h3 : env.is_dirty = false)
    (h4 : resolve_source_branch env opts = .ok lb)
    (h5 : env.projects (get_project_path_from_url sri.url) = some sp)
    (h6 : get_remote_branch_name env sp lb sr = .ok rb)
    (h7 : sri.refs.contains rb = true)
    (h8 : get_mr_commits env lb (sr ++ "/" ++ rb) = .ok [])
    (h9 : env.projects (get_project_path_from_url tri.url) = some tp)
    (h11 : get_mr_commits env (sr ++ "/" ++ rb)
             (pyOr opts.target_branch tp.default_branch) = .ok commits)
    (h12 : commits ≠ [])
    (h13 : opts.edit = false)
    (h14 : opts.assignee = Option.none)
    (h15 : tp.branches.contains (pyOr opts.target_branch tp.default_branch) = true)
    (h16 : env.create_mr_error = Option.none)
    (h17 : opts.accept_merge = false)
    (h18 : rb ≠ "") :
    (∀ m, opts.message = some m → m ≠ "" →
      (create env opts ("y" :: rest)).2.created.map (fun d => alookup d "title")
        = some (some (.vstr m))) ∧
    ((opts.message = Option.none ∨ opts.message = some "") → ∀ c, commits = [c] →
      (create env opts ("y" :: rest)).2.created.map (fun d => alookup d "title")
        = some (some (.vstr c.message))) ∧
    ((opts.message = Option.none ∨ opts.message = some "") → commits.length ≠ 1 →
      (create env opts ("y" :: rest)).2.created.map (fun d => alookup d "title")
        = some (some (.vstr rb))) := by
  refine ⟨?_, ?_, ?_⟩
  · intro m hm hmne
    have hpt : pick_title opts.message commits rb = m := by
      simp [pick_title, hm, hmne]
    rw [create_confirmed_run env opts "y" rest sr sri tri sp tp lb rb commits hsr h1 h2 h3
      h4 h5 h6 h7 h8 h9 h11 h12 h13 h14 h15 h16 h17 (hpt ▸ hmne) (by decide) (by decide)]
    simp [draftData, dpop, alookup, hpt]
  · intro hmsg c hc
    have hcne : c.message ≠ "" :=
      get_mr_commits_message_ne env (sr ++ "/" ++ rb)
        (pyOr opts.target_branch tp.default_branch) commits h11 c (hc ▸ List.mem_singleton_self c)
    have hpt : pick_title opts.message commits rb = c.message := by
      rcases hmsg with hmsg | hmsg <;> simp [pick_title, hmsg, hc, hcne]
    rw [create_confirmed_run env opts "y" rest sr sri tri sp tp lb rb commits hsr h1 h2 h3
      h4 h5 h6 h7 h8 h9 h11 h12 h13 h14 h15 h16 h17 (hpt ▸ hcne) (by decide) (by decide)]
    simp [draftData, dpop, alookup, hpt]
  · intro hmsg hlen
    have hpt : pick_title opts.message commits rb = rb := by
      rcases commits with _ | ⟨c, _ | ⟨c', cs⟩⟩
      · exact absurd rfl h12
      · exact absurd rfl hlen
      · rcases hmsg with hmsg | hmsg <;> simp [pick_title, hmsg]
    rw [create_confirmed_run env opts "y" rest sr sri tri sp tp lb rb commits hsr h1 h2 h3
      h4 h5 h6 h7 h8 h9 h11 h12 h13 h14 h15 h16 h17 (by rw [hpt]; exact h18) (by decide) (by decide)]
    simp [draftData, dpop, alookup, hpt]

/-- C5 witness: in the sample environment a single commit `Test` is the
default title, and with two commits the remote branch `feature` is; an
explicit non-empty message wins. -/
theorem c5_witness :
    (create sampleEnv { message := some "Custom title" } ["y"]).2.created.map
        (fun d => alookup d "title") = some (some (.vstr "Custom title")) ∧
    (create sampleEnv {} ["y"]).2.created.map (fun d => alookup d "title")
        = some (some (.vstr "Test")) ∧
    (create envC5 {} ["y"]).2.created.map (fun d => alookup d "title")
        = some (some (.vstr "feature")) := by
  refine ⟨?_, ?_, ?_⟩
  · exact (c5_amended_title_priority sampleEnv { message := some "Custom title" } []
      "origin"
      { url := "git@example.com:test/test.git", refs := ["master", "feature"] }
      { url := "git@example.com:test/test.git", refs := ["master", "feature"] }
      sampleProject sampleProject "feature" "feature" [⟨"0123456789", "Test", "+"⟩]
      (by decide) (by decide) (by decide) rfl rfl rfl rfl (by decide) rfl rfl rfl
      (by decide) rfl rfl (by decide) rfl rfl (by decide)).1
      "Custom title" rfl (by decide)
  · exact (c5_amended_title_priority sampleEnv {} []
      "origin"
      { url := "git@example.com:test/test.git", refs := ["master", "feature"] }
      { url := "git@example.com:test/test.git", refs := ["master", "feature"] }
      sampleProject sampleProject "feature" "feature" [⟨"0123456789", "Test", "+"⟩]
      (by decide) (by decide) (by decide) rfl rfl rfl rfl (by decide) rfl rfl rfl
      (by decide) rfl rfl (by decide) rfl rfl (by decide)).2.1
      (Or.inl rfl) ⟨"0123456789", "Test", "+"⟩ rfl
  · exact (c5_amended_title_priority envC5 {} []
      "origin"
      { url := "git@example.com:test/test.git", refs := ["master", "feature"] }
      { url := "git@example.com:test/test.git", refs := ["master", "feature"] }
      sampleProject sampleProject "feature" "feature"
      [⟨"0123456789", "Test", "+"⟩, ⟨"abcdef0123", "Test multiple commits", "+"⟩]
      (by decide) (by decide) (by decide) rfl rfl rfl rfl (by decide) rfl rfl rfl
      (by decide) rfl rfl (by decide) rfl rfl (by decide)).2.2
      (Or.inl rfl) (by decide)

/-- C6: at the preview prompt, empty input and case-insensitive `y`/`yes`
confirm and submit the prepared draft; case-insensitive `e`/`edit` runs the
edit sub-dialog and then submits the edited draft as if confirmed; any other
input cancels with return status 1 and nothing is submitted. -/
theorem c6_preview_prompt
    (env : Env) (opts : Opts) (raw : String) (rest : List String)
    (sr : String) (sri tri : RemoteInfo) (sp tp : Project) (lb rb : String)
    (commits : List MRCommit) (base ed : Dict)
    (hsr : pyOr opts.source_remote env.cfg_source_remote = sr)
    (h1 : alookup env.remotes sr = some sri)
    (h2 : alookup env.remotes (pyOr opts.target_remote env.cfg_target_remote) = some tri)
    (h3 : env.is_dirty = false)
    (h4 : resolve_source_branch env opts = .ok lb)
    (h5 : env.projects (get_project_path_from_url sri.url) = some sp)
    (h6 : get_remote_branch_name env sp lb sr = .ok rb)
    (h7 : sri.refs.contains rb = true)
    (h8 : get_mr_commits env lb (sr ++ "/" ++ rb) = .ok [])
    (h9 : env.projects (get_project_path_from_url tri.url) = some tp)
    (h11 : get_mr_commits env (sr ++ "/" ++ rb)
             (pyOr opts.target_branch tp.default_branch) = .ok commits)
    (h12 : commits ≠ [])
    (h13 : opts.edit = false)
    (h14 : opts.assignee = Option.none)
    (h15 : tp.branches.contains (pyOr opts.target_branch tp.default_branch) = true)
    (h16 : env.create_mr_error = Option.none)
    (h17 : opts.accept_merge = false)
    (hT : pick_title opts.message commits rb ≠ "")
    (hbase : draftData rb tp (pyOr opts.target_branch tp.default_branch)
               opts.assignee opts.remove_branch (pick_title opts.message commits rb) = base)
    (hed : edit_mr env base sp tp commits = ed)
    (hA2 : ((alookup ed "assignee").getD .vnone).truthy = false)
    (hT2 : ((alookup ed "title").getD .vnone).truthy = true) :
    ((raw = "" ∨ is_yes raw = true) →
      create env opts (raw :: rest) =
        (.ok 0, { created := some (dpop base "assignee"),
                  merged := false, merge_abort_printed := false })) ∧
    (is_edit raw = true →
      create env opts (raw :: rest) =
        (.ok 0, { created := some (dpop ed "assignee"),
                  merged := false, merge_abort_printed := false })) ∧
    (raw ≠ "" → is_yes raw = false → is_edit raw = false →
      create env opts (raw :: rest) = (.ok 1, Effects.none)) := by
  have hmem : rb ∈ sp.branches := by
    simpa using get_remote_branch_name_mem env sp lb sr rb h6
  have h15' : pyOr opts.target_branch tp.default_branch ∈ tp.branches := by
    simpa using h15
  refine ⟨?_, ?_, ?_⟩
  · intro hconfirm
    have hyes : is_yes (if raw = "" then "Y" else raw) = true := by
      rcases hconfirm with hr | hr
      · rw [if_pos hr]; decide
      · have hne : raw ≠ "" := by
          intro hr0
          rw [hr0] at hr
          exact absurd hr (by decide)
        rw [if_neg hne]; exact hr
    have hnedit : is_edit (if raw = "" then "Y" else raw) = false := by
      rcases hconfirm with hr | hr
      · rw [if_pos hr]; decide
      · have hne : raw ≠ "" := by
          intro hr0
          rw [hr0] at hr
          exact absurd hr (by decide)
        rw [if_neg hne]
        rcases (by simpa [is_yes] using hr : pyLower raw = "y" ∨ pyLower raw = "yes")
          with hl | hl <;> simp [is_edit, hl]
    rw [← hbase]
    exact create_confirmed_run env opts raw rest sr sri tri sp tp lb rb commits hsr h1
      h2 h3 h4 h5 h6 h7 h8 h9 h11 h12 h13 h14 h15 h16 h17 hT hyes hnedit
  · intro he
    have hne : raw ≠ "" := by
      intro hr0
      rw [hr0] at he
      exact absurd he (by decide)
    have hstep : create env opts (raw :: rest) =
        submit_step env opts
          { sr := sr, lb := lb, rb := rb, sp := sp, tp := tp,
            tb := pyOr opts.target_branch tp.default_branch,
            commits := commits, data := base } ed := by
      unfold create
      rw [prepare_ok env opts (raw :: rest) sr sri tri sp tp lb rb commits hsr h1 h2 h3
        h4 h5 h6 h7 h8 h9 h11 h12]
      simp only [confirm_step, h13, if_false, Bool.false_eq_true]
      rw [if_neg hne]
      simp only [he, if_true, hbase, hed]
    rw [hstep]
    have hassignee_some : (alookup ed "assignee").isSome = true := by
      rw [← hed, edit_mr]
      refine dupdate_lookup_isSome _ _ _ ?_
      rw [← hbase]
      simp [draftData, alookup]
    obtain ⟨av, hav⟩ := Option.isSome_iff_exists.mp hassignee_some
    have havt : av.truthy = false := by
      rw [hav] at hA2
      simpa using hA2
    have hsb : alookup ed "source_branch" = some (.vstr rb) := by
      rw [← hed, edit_mr,
        dupdate_lookup_none _ _ _ (parse_mr_file_other_keys _ _ (by simp [IsParseKey])),
        ← hbase]
      simp [draftData, alookup]
    have htb : alookup ed "target_branch"
        = some (.vstr (pyOr opts.target_branch tp.default_branch)) := by
      rw [← hed, edit_mr,
        dupdate_lookup_none _ _ _ (parse_mr_file_other_keys _ _ (by simp [IsParseKey])),
        ← hbase]
      simp [draftData, alookup]
    have hpop_sb : alookup (dpop ed "assignee") "source_branch" = some (.vstr rb) := by
      rw [alookup_dpop_ne _ _ _ (by decide)]
      exact hsb
    have hpop_tb : alookup (dpop ed "assignee") "target_branch"
        = some (.vstr (pyOr opts.target_branch tp.default_branch)) := by
      rw [alookup_dpop_ne _ _ _ (by decide)]
      exact htb
    have hpop_title : alookup (dpop ed "assignee") "title" = alookup ed "title" :=
      alookup_dpop_ne _ _ _ (by decide)
    simp [submit_step, submit_api, hav, havt, validate_mr_data, hpop_sb, hpop_tb,
      hpop_title, check_branch, Val.asString, hmem, h15', hT2, h16, h17]
  · intro hne hyes hedit
    unfold create
    rw [prepare_ok env opts (raw :: rest) sr sri tri sp tp lb rb commits hsr h1 h2 h3
      h4 h5 h6 h7 h8 h9 h11 h12]
    simp only [confirm_step, h13, if_false, Bool.false_eq_true]
    rw [if_neg hne]
    simp [hyes, hedit]

/-- The prepared draft of the sample environment. -/
def baseC6 : Dict :=
  [("source_branch", .vstr "feature"), ("target_project_id", .vnat 123),
   ("target_branch", .vstr "master"), ("assignee", .vnone),
   ("remove_source_branch", .vbool true), ("title", .vstr "Test")]

/-- The draft after an identity editor pass: the parsed buffer sets the
title back, an empty assignee and an empty description. -/
def edC6 : Dict :=
  [("source_branch", .vstr "feature"), ("target_project_id", .vnat 123),
   ("target_branch", .vstr "master"), ("assignee", .vstr ""),
   ("remove_source_branch", .vbool true), ("title", .vstr "Test"),
   ("description", .vstr "")]

set_option maxRecDepth 40000 in
/-- C6 witness: in the sample environment, empty input submits the prepared
draft, `E` runs the editor and submits the edited draft, and `no` cancels
with status 1. -/
theorem c6_witness :
    create sampleEnv {} [""] =
      (.ok 0, { created := some (dpop baseC6 "assignee"),
                merged := false, merge_abort_printed := false }) ∧
    create sampleEnv {} ["E"] =
      (.ok 0, { created := some (dpop edC6 "assignee"),
                merged := false, merge_abort_printed := false }) ∧
    create sampleEnv {} ["no"] = (.ok 1, Effects.none) := by
  refine ⟨?_, ?_, ?_⟩
  · exact (c6_preview_prompt sampleEnv {} "" [] "origin"
      { url := "git@example.com:test/test.git", refs := ["master", "feature"] }
      { url := "git@example.com:test/test.git", refs := ["master", "feature"] }
      sampleProject sampleProject "feature" "feature" [⟨"0123456789", "Test", "+"⟩]
      baseC6 edC6
      (by decide) (by decide) (by decide) rfl rfl rfl rfl (by decide) (by decide) rfl
      (by decide) (by decide) rfl rfl (by decide) rfl rfl (by decide) (by decide)
      (by decide) (by decide) (by decide)).1 (Or.inl rfl)
  · exact (c6_preview_prompt sampleEnv {} "E" [] "origin"
      { url := "git@example.com:test/test.git", refs := ["master", "feature"] }
      { url := "git@example.com:test/test.git", refs := ["master", "feature"] }
      sampleProject sampleProject "feature" "feature" [⟨"0123456789", "Test", "+"⟩]
      baseC6 edC6
      (by decide) (by decide) (by decide) rfl rfl rfl rfl (by decide) (by decide) rfl
      (by decide) (by decide) rfl rfl (by decide) rfl rfl (by decide) (by decide)
      (by decide) (by decide) (by decide)).2.1 (by decide)
  · exact (c6_preview_prompt sampleEnv {} "no" [] "origin"
      { url := "git@example.com:test/test.git", refs := ["master", "feature"] }
      { url := "git@example.com:test/test.git", refs := ["master", "feature"] }
      sampleProject sampleProject "feature" "feature" [⟨"0123456789", "Test", "+"⟩]
      baseC6 edC6
      (by decide) (by decide) (by decide) rfl rfl rfl rfl (by decide) (by decide) rfl
      (by decide) (by decide) rfl rfl (by decide) rfl rfl (by decide) (by decide)
      (by decide) (by decide) (by decide)).2.2 (by decide) (by decide) (by decide)

/-- Every branch of the API tail records the validated payload as the
created draft. -/
theorem submit_api_created (env : Env) (opts : Opts) (ctx : Ctx) (data4 : Dict) :
    (submit_api env opts ctx data4).2.created = some data4 := by
  unfold submit_api
  repeat' split
  all_goals first
    | rfl
    | (dsimp only; split <;> rfl)

/-- Whatever run reaches submission, the payload passed to the host is the
working dict with its `assignee` key popped. -/
theorem create_created_popped
    (env : Env) (opts : Opts) (answers : List String) (d : Dict)
    (h : (create env opts answers).2.created = some d) :
    ∃ data3, d = dpop data3 "assignee" := by
  unfold create at h
  cases hp : prepare env opts answers with
  | error e => rw [hp] at h; simp [Effects.none] at h
  | ok s =>
    rw [hp] at h
    cases s with
    | inl n => simp [Effects.none] at h
    | inr p =>
      obtain ⟨ctx, ans2⟩ := p
      dsimp only at h
      cases hc : confirm_step env opts ctx ans2 with
      | error e => rw [hc] at h; simp [Effects.none] at h
      | ok s2 =>
        rw [hc] at h
        cases s2 with
        | inl n => simp [Effects.none] at h
        | inr data2 =>
          dsimp only at h
          unfold submit_step at h
          repeat' split at h
          all_goals
            first
            | (simp [Effects.none] at h; done)
            | (rename_i av data3 hres
               dsimp only at h
               cases hv : validate_mr_data ctx.sp ctx.tp (dpop data3 "assignee") with
               | error e =>
                 rw [hv] at h
                 simp [Effects.none] at h
               | ok u =>
                 rw [hv] at h
                 dsimp only at h
                 rw [submit_api_created] at h
                 exact ⟨_, by injection h with h; exact h.symm⟩)

/-- C7: no submitted payload ever contains an `assignee` key (so it never
carries both `assignee` and `assignee_id`); with no assignee set the payload
carries no `assignee_id` either; a set assignee is resolved to a numeric
`assignee_id` through an exact username match, and a missing match is a
fatal user-not-found error. -/
theorem c7_assignee_resolution
    (env : Env) (opts : Opts) (rest : List String)
    (sr : String) (sri tri : RemoteInfo) (sp tp : Project) (lb rb : String)
    (commits : List MRCommit)
    (hsr : pyOr opts.source_remote env.cfg_source_remote = sr)
    (h1 : alookup env.remotes sr = some sri)
    (h2 : alookup env.remotes (pyOr opts.target_remote env.cfg_target_remote) = some tri)
    (h3 : env.is_dirty = false)
    (h4 : resolve_source_branch env opts = .ok lb)
    (h5 : env.projects (get_project_path_from_url sri.url) = some sp)
    (h6 : get_remote_branch_name env sp lb sr = .ok rb)
    (h7 : sri.refs.contains rb = true)
    (h8 : get_mr_commits env lb (sr ++ "/" ++ rb) = .ok [])
    (h9 : env.projects (get_project_path_from_url tri.url) = some tp)
    (h11 : get_mr_commits env (sr ++ "/" ++ rb)
             (pyOr opts.target_branch tp.default_branch) = .ok commits)
    (h12 : commits ≠ [])
    (h13 : opts.edit = false)
    (h15 : tp.branches.contains (pyOr opts.target_branch tp.default_branch) = true)
    (h16 : env.create_mr_error = Option.none)
    (h17 : opts.accept_merge = false)
    (hT : pick_title opts.message commits rb ≠ "") :
    (∀ (env' : Env) (opts' : Opts) (answers' : List String) (d : Dict),
       (create env' opts' answers').2.created = some d →
       alookup d "assignee" = Option.none ∧
       ¬((alookup d "assignee").isSome = true ∧
         (alookup d "assignee_id").isSome = true)) ∧
    (opts.assignee = Option.none →
      (create env opts ("y" :: rest)).2.created.map (fun d => alookup d "assignee_id")
        = some Option.none) ∧
    (∀ a u, opts.assignee = some a → a ≠ "" →
      (env.user_search a).find? (fun w => w.username = a) = some u →
      (create env opts ("y" :: rest)).2.created.map (fun d => alookup d "assignee_id")
        = some (some (.vnat u.id))) ∧
    (∀ a, opts.assignee = some a → a ≠ "" →
      (env.user_search a).find? (fun w => w.username = a) = Option.none →
      create env opts ("y" :: rest) =
        (.error (.fatal ("Cannot find user [" ++ a ++ "]")), Effects.none)) := by
  have hmem : rb ∈ sp.branches := by
    simpa using get_remote_branch_name_mem env sp lb sr rb h6
  have h15' : pyOr opts.target_branch tp.default_branch ∈ tp.branches := by
    simpa using h15
  refine ⟨?_, ?_, ?_, ?_⟩
  · intro env' opts' answers' d hd
    obtain ⟨data3, hd3⟩ := create_created_popped env' opts' answers' d hd
    subst hd3
    refine ⟨alookup_dpop_self data3 "assignee", ?_⟩
    rintro ⟨hsome, _⟩
    rw [alookup_dpop_self data3 "assignee"] at hsome
    cases hsome
  · intro h14
    rw [create_confirmed_run env opts "y" rest sr sri tri sp tp lb rb commits hsr h1 h2
      h3 h4 h5 h6 h7 h8 h9 h11 h12 h13 h14 h15 h16 h17 hT (by decide) (by decide)]
    simp [draftData, dpop, alookup, h14, assigneeVal]
  · intro a u h14 ha hu
    rw [create_eq_submit env opts "y" rest sr sri tri sp tp lb rb commits hsr h1 h2 h3
      h4 h5 h6 h7 h8 h9 h11 h12 h13 (by decide) (by decide)]
    simp [submit_step, submit_api, validate_mr_data, check_branch, draftData, dpop,
      dset, alookup, Val.truthy, Val.asString, assigneeVal, get_user_by_username,
      h14, ha, hu, hmem, h15', hT, h16, h17]
  · intro a h14 ha hu
    rw [create_eq_submit env opts "y" rest sr sri tri sp tp lb rb commits hsr h1 h2 h3
      h4 h5 h6 h7 h8 h9 h11 h12 h13 (by decide) (by decide)]
    simp [submit_step, submit_api, validate_mr_data, check_branch, draftData, dpop,
      dset, alookup, Val.truthy, Val.asString, assigneeVal, get_user_by_username,
      h14, ha, hu, Effects.none]

/-- Environment whose host knows the user `alice` with id 42 (the search
also returns a near-miss first, which exact matching must skip). -/
def envC7 : Env :=
  { sampleEnv with user_search := fun q =>
      if q = "alice" then [⟨"alicia", 7⟩, ⟨"alice", 42⟩] else [] }

/-- C7 witness: the submitted payload has no `assignee` key; without an
assignee there is no `assignee_id`; `alice` resolves to id 42; `bob` is a
fatal user-not-found error. -/
theorem c7_witness :
    alookup (dpop baseC6 "assignee") "assignee" = Option.none ∧
    (create sampleEnv {} ["y"]).2.created.map (fun d => alookup d "assignee_id")
      = some Option.none ∧
    (create envC7 { assignee := some "alice" } ["y"]).2.created.map
        (fun d => alookup d "assignee_id") = some (some (.vnat 42)) ∧
    create envC7 { assignee := some "bob" } ["y"] =
      (.error (.fatal ("Cannot find user [" ++ "bob" ++ "]")), Effects.none) := by
  refine ⟨?_, ?_, ?_, ?_⟩
  · exact ((c7_assignee_resolution sampleEnv {} [] "origin"
      { url := "git@example.com:test/test.git", refs := ["master", "feature"] }
      { url := "git@example.com:test/test.git", refs := ["master", "feature"] }
      sampleProject sampleProject "feature" "feature" [⟨"0123456789", "Test", "+"⟩]
      (by decide) (by decide) (by decide) rfl rfl rfl rfl (by decide) (by decide) rfl
      (by decide) (by decide) rfl (by decide) rfl rfl (by decide)).1
      sampleEnv {} ["y"] (dpop baseC6 "assignee") (by decide)).1
  · exact (c7_assignee_resolution sampleEnv {} [] "origin"
      { url := "git@example.com:test/test.git", refs := ["master", "feature"] }
      { url := "git@example.com:test/test.git", refs := ["master", "feature"] }
      sampleProject sampleProject "feature" "feature" [⟨"0123456789", "Test", "+"⟩]
      (by decide) (by decide) (by decide) rfl rfl rfl rfl (by decide) (by decide) rfl
      (by decide) (by decide) rfl (by decide) rfl rfl (by decide)).2.1 rfl
  · exact (c7_assignee_resolution envC7 { assignee := some "alice" } [] "origin"
      { url := "git@example.com:test/test.git", refs := ["master", "feature"] }
      { url := "git@example.com:test/test.git", refs := ["master", "feature"] }
      sampleProject sampleProject "feature" "feature" [⟨"0123456789", "Test", "+"⟩]
      (by decide) (by decide) (by decide) rfl rfl rfl rfl (by decide) (by decide) rfl
      (by decide) (by decide) rfl (by decide) rfl rfl (by decide)).2.2.1
      "alice" ⟨"alice", 42⟩ rfl (by decide) (by decide)
  · exact (c7_assignee_resolution envC7 { assignee := some "bob" } [] "origin"
      { url := "git@example.com:test/test.git", refs := ["master", "feature"] }
      { url := "git@example.com:test/test.git", refs := ["master", "feature"] }
      sampleProject sampleProject "feature" "feature" [⟨"0123456789", "Test", "+"⟩]
      (by decide) (by decide) (by decide) rfl rfl rfl rfl (by decide) (by decide) rfl
      (by decide) (by decide) rfl (by decide) rfl rfl (by decide)).2.2.2
      "bob" rfl (by decide) (by decide)

/-- C8: the edit step only ever rewrites the three parsed fields — every
other draft key (in particular `source_branch`, `target_branch`,
`target_project_id`, `remove_source_branch`) keeps its value; a field whose
label appears in the parsed buffer is overwritten with the parsed value, a
field whose label is absent is untouched, and a label with zero content
lines parses to the empty string. -/
theorem c8_edit_replaces_three_fields (env : Env) (data : Dict)
    (sp tp : Project) (cs : List MRCommit) :
    (∀ k, k ≠ "title" → k ≠ "assignee" → k ≠ "description" →
       alookup (edit_mr env data sp tp cs) k = alookup data k) ∧
    (alookup (edit_mr env data sp tp cs) "source_branch"
       = alookup data "source_branch") ∧
    (alookup (edit_mr env data sp tp cs) "target_branch"
       = alookup data "target_branch") ∧
    (alookup (edit_mr env data sp tp cs) "target_project_id"
       = alookup data "target_project_id") ∧
    (alookup (edit_mr env data sp tp cs) "remove_source_branch"
       = alookup data "remove_source_branch") ∧
    (∀ k v, alookup (parse_mr_file (env.editor (editBufferContent data sp tp cs))) k
         = some v →
       alookup (edit_mr env data sp tp cs) k = some v) ∧
    (∀ k, alookup (parse_mr_file (env.editor (editBufferContent data sp tp cs))) k
         = Option.none →
       alookup (edit_mr env data sp tp cs) k = alookup data k) ∧
    parse_mr_file "Title:\nAssignee:\nDescription:" =
      [("title", .vstr ""), ("assignee", .vstr ""), ("description", .vstr "")] := by
  have frame : ∀ k, ¬ IsParseKey k →
      alookup (edit_mr env data sp tp cs) k = alookup data k := by
    intro k hk
    rw [edit_mr, dupdate_lookup_none _ _ _ (parse_mr_file_other_keys _ _ hk)]
  refine ⟨?_, ?_, ?_, ?_, ?_, ?_, ?_, by decide⟩
  · intro k h1n h2n h3n
    exact frame k (by simp [IsParseKey, h1n, h2n, h3n])
  · exact frame _ (by simp [IsParseKey])
  · exact frame _ (by simp [IsParseKey])
  · exact frame _ (by simp [IsParseKey])
  · exact frame _ (by simp [IsParseKey])
  · intro k v hv
    rw [edit_mr]
    exact dupdate_lookup_some _ _ _ _ (parse_mr_file_nodup _) hv
  · intro k hv
    rw [edit_mr]
    exact dupdate_lookup_none _ _ _ hv

/-- C8 witness: for the sample draft and identity editor, the frame fields
keep their values while the parsed fields overwrite. -/
theorem c8_witness :
    alookup (edit_mr sampleEnv baseC6 sampleProject sampleProject
        [⟨"0123456789", "Test", "+"⟩]) "source_branch" = some (.vstr "feature") ∧
    alookup (edit_mr sampleEnv baseC6 sampleProject sampleProject
        [⟨"0123456789", "Test", "+"⟩]) "remove_source_branch" = some (.vbool true) := by
  constructor
  · rw [(c8_edit_replaces_three_fields sampleEnv baseC6 sampleProject sampleProject
      [⟨"0123456789", "Test", "+"⟩]).2.1]
    decide
  · rw [(c8_edit_replaces_three_fields sampleEnv baseC6 sampleProject sampleProject
      [⟨"0123456789", "Test", "+"⟩]).2.2.2.2.1]
    decide

/-- C9: with auto-merge requested, a `failed` status of the remote branch
tip that is not an allowed failure aborts only the merge attempt — the
notice is printed, `mr.merge` is never called and the created merge request
stays recorded, with exit status 0; with no such status the host is asked
to merge. -/
theorem c9_auto_merge_gating
    (env : Env) (opts : Opts) (rest : List String)
    (sr : String) (sri tri : RemoteInfo) (sp tp : Project) (lb rb : String)
    (commits : List MRCommit)
    (hsr : pyOr opts.source_remote env.cfg_source_remote = sr)
    (h1 : alookup env.remotes sr = some sri)
    (h2 : alookup env.remotes (pyOr opts.target_remote env.cfg_target_remote) = some tri)
    (h3 : env.is_dirty = false)
    (h4 : resolve_source_branch env opts = .ok lb)
    (h5 : env.projects (get_project_path_from_url sri.url) = some sp)
    (h6 : get_remote_branch_name env sp lb sr = .ok rb)
    (h7 : sri.refs.contains rb = true)
    (h8 : get_mr_commits env lb (sr ++ "/" ++ rb) = .ok [])
    (h9 : env.projects (get_project_path_from_url tri.url) = some tp)
    (h11 : get_mr_commits env (sr ++ "/" ++ rb)
             (pyOr opts.target_branch tp.default_branch) = .ok commits)
    (h12 : commits ≠ [])
    (h13 : opts.edit = false)
    (h14 : opts.assignee = Option.none)
    (h15 : tp.branches.contains (pyOr opts.target_branch tp.default_branch) = true)
    (h16 : env.create_mr_error = Option.none)
    (h17 : opts.accept_merge = true)
    (hT : pick_title opts.message commits rb ≠ "") :
    ((env.commit_statuses (sp.branch_tip rb)).any
        (fun s => !s.allow_failure && s.status = "failed") = true →
      create env opts ("y" :: rest) =
        (.ok 0, { created := some (dpop (draftData rb tp
                    (pyOr opts.target_branch tp.default_branch) opts.assignee
                    opts.remove_branch (pick_title opts.message commits rb)) "assignee"),
                  merged := false, merge_abort_printed := true })) ∧
    ((env.commit_statuses (sp.branch_tip rb)).any
        (fun s => !s.allow_failure && s.status = "failed") = false →
      env.merge_error = Option.none →
      create env opts ("y" :: rest) =
        (.ok 0, { created := some (dpop (draftData rb tp
                    (pyOr opts.target_branch tp.default_branch) opts.assignee
                    opts.remove_branch (pick_title opts.message commits rb)) "assignee"),
                  merged := true, merge_abort_printed := false })) := by
  have hmem : rb ∈ sp.branches := by
    simpa using get_remote_branch_name_mem env sp lb sr rb h6
  have h15' : pyOr opts.target_branch tp.default_branch ∈ tp.branches := by
    simpa using h15
  constructor
  · intro hany
    rw [create_eq_submit env opts "y" rest sr sri tri sp tp lb rb commits hsr h1 h2 h3
      h4 h5 h6 h7 h8 h9 h11 h12 h13 (by decide) (by decide)]
    simp [submit_step, submit_api, validate_mr_data, check_branch, draftData, dpop,
      alookup, Val.truthy, Val.asString, assigneeVal,
      h14, h16, h17, hmem, h15', hT, hany]
  · intro hany hmerge
    rw [create_eq_submit env opts "y" rest sr sri tri sp tp lb rb commits hsr h1 h2 h3
      h4 h5 h6 h7 h8 h9 h11 h12 h13 (by decide) (by decide)]
    simp [submit_step, submit_api, validate_mr_data, check_branch, draftData, dpop,
      alookup, Val.truthy, Val.asString, assigneeVal,
      h14, h16, h17, hmem, h15', hT, hany, hmerge]

/-- C9 witness: a non-allowed failed status skips the merge call with the
notice printed and the created request intact, while passing statuses lead
to the merge call. -/
theorem c9_witness :
    create { sampleEnv with commit_statuses := fun _ =>
        [{ allow_failure := false, status := "failed" }] }
      { accept_merge := true } ["y"] =
      (.ok 0, { created := some (dpop baseC6 "assignee"),
                merged := false, merge_abort_printed := true }) ∧
    create sampleEnv { accept_merge := true } ["y"] =
      (.ok 0, { created := some (dpop baseC6 "assignee"),
                merged := true, merge_abort_printed := false }) := by
  constructor
  · exact (c9_auto_merge_gating
      { sampleEnv with commit_statuses := fun _ =>
          [{ allow_failure := false, status := "failed" }] }
      { accept_merge := true } [] "origin"
      { url := "git@example.com:test/test.git", refs := ["master", "feature"] }
      { url := "git@example.com:test/test.git", refs := ["master", "feature"] }
      sampleProject sampleProject "feature" "feature" [⟨"0123456789", "Test", "+"⟩]
      (by decide) (by decide) (by decide) rfl rfl rfl rfl (by decide) (by decide) rfl
      (by decide) (by decide) rfl rfl (by decide) rfl rfl (by decide)).1 (by decide)
  · exact (c9_auto_merge_gating sampleEnv { accept_merge := true } [] "origin"
      { url := "git@example.com:test/test.git", refs := ["master", "feature"] }
      { url := "git@example.com:test/test.git", refs := ["master", "feature"] }
      sampleProject sampleProject "feature" "feature" [⟨"0123456789", "Test", "+"⟩]
      (by decide) (by decide) (by decide) rfl rfl rfl rfl (by decide) (by decide) rfl
      (by decide) (by decide) rfl rfl (by decide) rfl rfl (by decide)).2
      (by decide) rfl

end GitlabMR
